import Mathlib

/-!
# Verification of the Dragon 32 emulator core (dragon32-emu)

Shallow embedding, in Lean 4, of the parts of the emulator that the
checked claims are about:

* the WD2797 floppy-disk controller state machine (`src/disk.c`),
* the MC6847 VDG mode decoder and frame renderers (`src/vdg.c`),
* the cassette-tape capture trap (`tape.c`).

Machine bytes are modelled as `Nat` with explicit masking where an
overflow or a truncation matters.  Host collaborators (the 64 KiB bus,
the disk-image byte stream, the ROM font tables) are modelled as
function parameters, so every theorem quantifies over them.  File and
interrupt side effects are reified as an explicit effect list so
frame conditions ("no image I/O happens") are expressible.
-/

namespace Dragon32

/-- `MEM_READ` / `MEM_WRITE` dispatch tag of the I/O callback handlers
(`mem_operation_t` in `mem.h`). -/
inductive mem_operation_t
  | MEM_READ
  | MEM_WRITE
deriving DecidableEq, Repr

/-- Disk-image kinds returned by `loader_disk_img_type()` (`loader.c`):
only `FILE_NONE` vs `FILE_VDK` matter to `disk.c`; every other mounted
kind behaves like `FILE_RAW` (not `FILE_NONE` and not `FILE_VDK`). -/
inductive loader_file_type_t
  | FILE_NONE
  | FILE_VDK
  | FILE_RAW
deriving DecidableEq, Repr

/-- Side effects of the disk handlers on the image byte stream and the
interrupt lines, reified so that frame conditions can be stated. -/
inductive disk_eff
  | eff_fseek (position : Nat)
  | eff_fread (bytes : Nat)
  | eff_fwrite (bytes : Nat)
  | eff_firq
  | eff_nmi
deriving DecidableEq, Repr

/-- `disk_state_t` from `src/disk.c` (DISK_UNDEFINED is never assigned
by the code and is omitted). -/
inductive disk_state_t
  | DISK_IDLE
  | DISK_READ
  | DISK_WRITE
  | DISK_READ_ID
  | DISK_WRITE_TRK
deriving DecidableEq, Repr

/-- The `disk_registers` file-scope struct of `src/disk.c`. -/
structure disk_reg_t where
  disk_cmd : Nat
  disk_status : Nat
  disk_track : Nat
  disk_sector : Nat
  disk_data : Nat
  motor_on : Nat
  disk_drive_num : Nat
  disk_double_density : Nat

/-- Whole-module state of `src/disk.c`: registers, controller state,
the cached `vdk_header` fields the code actually uses, the 4608-byte
track `buffer` (as a total function on indices) with `buffer_index`,
and the `nmi_inhibit` flag.  `halted` records that `rpi_halt()` was
reached (the C function never returns). -/
structure disk_t where
  regs : disk_reg_t
  state : disk_state_t
  nmi_inhibit : Nat
  vdk_header_size : Nat
  vdk_tracks : Nat
  vdk_sides : Nat
  buffer : Nat → Nat
  buffer_index : Nat
  halted : Bool

/-- Environment the disk module reads through `loader.c`: the mounted
image kind and the image byte stream (`loader_disk_fseek` /
`loader_disk_fread` address into this byte function). -/
structure disk_env where
  img_type : loader_file_type_t
  img : Nat → Nat

/-- `disk_to_image_offset()` of `src/disk.c`:
`SECTOR_SIZE * (SEC_PER_TRACK * track + (sector - 1))`.
The code is only invoked with `sector ≥ 1` (WD2797 sectors count from
1), where `Nat` subtraction agrees with the C `int` arithmetic. -/
def disk_to_image_offset (track sector : Nat) : Nat :=
  256 * (18 * track + (sector - 1))

/-- `disk_intrq()` of `src/disk.c`: pulse NMI unless inhibited. -/
def disk_intrq (s : disk_t) : List disk_eff :=
  if s.nmi_inhibit = 0 then [disk_eff.eff_nmi] else []

/-- VDK header fields as `io_handler_wd2797_cmd_stat()` re-reads them
from the first 12 image bytes into the packed `disk_vdk_header_t`
struct: `header_size` is the little-endian 16-bit word at offset 2,
`tracks` is byte 8 and `sides` is byte 9. -/
def vdk_read_header (img : Nat → Nat) (s : disk_t) : disk_t :=
  { s with
    vdk_header_size := img 2 + 256 * img 3
    vdk_tracks := img 8
    vdk_sides := img 9 }

/-- `io_handler_wd2797_cmd_stat()` of `src/disk.c` (address 0xFF40).
Returns the updated module state, the reified effect list, and the
byte the handler returns. -/
def io_handler_wd2797_cmd_stat (env : disk_env) (s : disk_t) (data : Nat)
    (op : mem_operation_t) : disk_t × List disk_eff × Nat :=
  match op with
  | .MEM_READ => (s, [], s.regs.disk_status)
  | .MEM_WRITE =>
    -- disk_registers.disk_cmd = data  (unconditional)
    let s := { s with regs := { s.regs with disk_cmd := data } }
    if data = 0xd0 then
      -- WDCmdForceInt
      ({ s with state := .DISK_IDLE,
                regs := { s.regs with disk_status := 0 } }, [], 0)
    else if s.regs.disk_status &&& 1 = 0 then      -- !(status & WDBusy)
      if data &&& 0xfc = 0x00 then
        -- WDCmdRestore (step-rate bits masked)
        let s := { s with state := .DISK_IDLE,
                          regs := { s.regs with disk_track := 0,
                                                disk_status := 0b100 } }
        (s, disk_intrq s, 0)
      else if data &&& 0xfc = 0x10 then
        -- WDCmdSeek: track <- data register, Track0 status when 0
        let s := { s with state := .DISK_IDLE,
                          regs := { s.regs with
                            disk_track := s.regs.disk_data,
                            disk_status :=
                              if s.regs.disk_data = 0 then 0b100 else 0 } }
        (s, disk_intrq s, 0)
      else if data = 0x88 then
        -- WDCmdReadSec
        if env.img_type ≠ .FILE_NONE then
          let base := disk_to_image_offset s.regs.disk_track s.regs.disk_sector
          let s := if env.img_type = .FILE_VDK then vdk_read_header env.img s else s
          let hdr_effs : List disk_eff :=
            if env.img_type = .FILE_VDK then [.eff_fseek 0, .eff_fread 12] else []
          let seek_address :=
            if env.img_type = .FILE_VDK then base + s.vdk_header_size else base
          let s := { s with
            state := .DISK_READ,
            buffer := fun k => if k < 256 then env.img (seek_address + k) else s.buffer k,
            regs := { s.regs with disk_status := 1 },   -- WDBusy
            buffer_index := 0 }
          (s, hdr_effs ++ [.eff_fseek seek_address, .eff_fread 256], 0)
        else (s, [], 0)
      else if data = 0xa8 then
        -- WDCmdWriteSec
        if env.img_type ≠ .FILE_NONE then
          let base := disk_to_image_offset s.regs.disk_track s.regs.disk_sector
          let s := if env.img_type = .FILE_VDK then vdk_read_header env.img s else s
          let hdr_effs : List disk_eff :=
            if env.img_type = .FILE_VDK then [.eff_fseek 0, .eff_fread 12] else []
          let seek_address :=
            if env.img_type = .FILE_VDK then base + s.vdk_header_size else base
          let s := { s with
            state := .DISK_WRITE,
            regs := { s.regs with disk_status := 1 },
            buffer_index := 0 }
          (s, hdr_effs ++ [.eff_fseek seek_address], 0)
        else (s, [], 0)
      else if data = 0xc0 then
        -- WDCmdReadAddr: synthesize the 6-byte ID field in buffer[0..5]
        let id : List Nat := [s.regs.disk_track, 1, s.regs.disk_sector,
                              255, 0xbe, 0xef]
        let s := { s with
          state := .DISK_READ_ID,
          buffer := fun k => if k < 6 then id.getD k 0 else s.buffer k,
          regs := { s.regs with disk_status := 1 },
          buffer_index := 0 }
        (s, [], 0)
      else if data = 0xf4 then
        -- WDCmdWriteTrack
        if env.img_type ≠ .FILE_NONE then
          let s := if env.img_type = .FILE_VDK then vdk_read_header env.img s else s
          let hdr_effs : List disk_eff :=
            if env.img_type = .FILE_VDK then [.eff_fseek 0, .eff_fread 12] else []
          let s := { s with
            state := .DISK_WRITE_TRK,
            regs := { s.regs with disk_status := 1 },
            buffer_index := 0 }
          (s, hdr_effs, 0)
        else (s, [], 0)
      else
        -- unknown command: state <- DISK_IDLE then rpi_halt()
        ({ s with state := .DISK_IDLE, halted := true }, [], 0)
    else
      -- controller busy: only the latched command byte was updated
      (s, [], 0)

/-- `io_handler_wd2797_track()` of `src/disk.c` (address 0xFF41).
The C guard is `!(disk_registers.disk_status && WDBusy)` with the
*logical* `&&` operator, so the write is accepted exactly when the
whole status byte is zero, not merely when the Busy bit is clear. -/
def io_handler_wd2797_track (s : disk_t) (data : Nat)
    (op : mem_operation_t) : disk_t × List disk_eff × Nat :=
  if s.regs.disk_status = 0 ∧ op = .MEM_WRITE then
    ({ s with regs := { s.regs with disk_track := data } }, [], 0)
  else
    (s, [], s.regs.disk_track)

/-- `io_handler_wd2797_sector()` of `src/disk.c` (address 0xFF42); same
logical-`&&` guard as the track register handler. -/
def io_handler_wd2797_sector (s : disk_t) (data : Nat)
    (op : mem_operation_t) : disk_t × List disk_eff × Nat :=
  if s.regs.disk_status = 0 ∧ op = .MEM_WRITE then
    ({ s with regs := { s.regs with disk_sector := data } }, [], 0)
  else
    (s, [], s.regs.disk_sector)

/-- `io_handler_wd2797_data()` of `src/disk.c` (address 0xFF43).
Status masks: `~WDDRQ` on a byte is `&&& 0xfd`, `~WDBusy` is
`&&& 0xfe`, `~(WDBusy + WDDRQ)` is `&&& 0xfc`. -/
def io_handler_wd2797_data (s : disk_t) (data : Nat)
    (op : mem_operation_t) : disk_t × List disk_eff × Nat :=
  match s.state, op with
  | .DISK_IDLE, .MEM_READ => (s, [], s.regs.disk_data)
  | .DISK_IDLE, .MEM_WRITE =>
      ({ s with regs := { s.regs with disk_data := data } }, [], 0)
  | .DISK_READ, .MEM_READ =>
      let response := s.buffer s.buffer_index
      let s := { s with
        regs := { s.regs with disk_data := response,
                              disk_status := s.regs.disk_status &&& 0xfd } }
      if s.buffer_index + 1 = 256 then
        ({ s with buffer_index := s.buffer_index + 1,
                  state := .DISK_IDLE,
                  regs := { s.regs with
                    disk_status := s.regs.disk_status &&& 0xfe } },
         [], response)
      else
        ({ s with buffer_index := s.buffer_index + 1 }, [], response)
  | .DISK_READ, .MEM_WRITE => (s, [], 0)
  | .DISK_WRITE, .MEM_WRITE =>
      let s := { s with
        regs := { s.regs with disk_data := data,
                              disk_status := s.regs.disk_status &&& 0xfd },
        buffer := fun k => if k = s.buffer_index then data else s.buffer k }
      if s.buffer_index + 1 = 256 then
        ({ s with buffer_index := s.buffer_index + 1,
                  state := .DISK_IDLE,
                  regs := { s.regs with
                    disk_status := s.regs.disk_status &&& 0xfe } },
         [.eff_fwrite 256], 0)
      else
        ({ s with buffer_index := s.buffer_index + 1 }, [], 0)
  | .DISK_WRITE, .MEM_READ => (s, [], 0)
  | .DISK_READ_ID, .MEM_READ =>
      let response := s.buffer s.buffer_index
      let s := { s with
        regs := { s.regs with disk_data := response,
                              disk_status := s.regs.disk_status &&& 0xfd } }
      if s.buffer_index + 1 = 6 then
        ({ s with buffer_index := s.buffer_index + 1,
                  state := .DISK_IDLE,
                  regs := { s.regs with
                    disk_status := s.regs.disk_status &&& 0xfc } },
         [], response)
      else
        ({ s with buffer_index := s.buffer_index + 1 }, [], response)
  | .DISK_READ_ID, .MEM_WRITE => (s, [], 0)
  | .DISK_WRITE_TRK, .MEM_WRITE =>
      let s := { s with
        regs := { s.regs with disk_data := data,
                              disk_status := s.regs.disk_status &&& 0xfd } }
      if s.buffer_index < 111 then
        ({ s with buffer_index := s.buffer_index + 1 }, [], 0)
      else if s.buffer_index < 111 + 4 then
        ({ s with
            buffer := fun k => if k = s.buffer_index then data else s.buffer k,
            buffer_index := s.buffer_index + 1 }, [], 0)
      else
        let seek_address := disk_to_image_offset (s.buffer 111) 1 + s.vdk_header_size
        ({ s with
            state := .DISK_IDLE,
            buffer := fun _ => 0xe5,
            regs := { s.regs with
              disk_status := s.regs.disk_status &&& 0xfe } },
         [.eff_fseek seek_address, .eff_fwrite 4608], 0)
  | .DISK_WRITE_TRK, .MEM_READ => (s, [], 0)

/-- `io_handler_drive_ctrl()` of `src/disk.c` (address 0xFF48).  The
motor-LED host calls are outside the core and are not reified.  A
drive-select change away from drive 0 reaches `rpi_halt()`. -/
def io_handler_drive_ctrl (s : disk_t) (data : Nat) :
    disk_t × List disk_eff × Nat :=
  let s := { s with
    nmi_inhibit := if data &&& 0b100000 ≠ 0 then 0 else 1,
    regs := { s.regs with
      motor_on := if data &&& 0b100 ≠ 0 then 1 else 0,
      disk_double_density := if data &&& 0b1000 ≠ 0 then 1 else 0 } }
  if data &&& 0b11 ≠ s.regs.disk_drive_num then
    ({ s with halted := true }, [], data)
  else
    (s, [], data)

/-- `disk_io_interrupt()` of `src/disk.c`: the periodic tick.  The
static `time_mark` micro-second bookkeeping is abstracted by the
`fire` flag: `fire = true` models a call where the guarding delay has
elapsed.  When firing with the controller active the routine pulses
DRQ (`status |= WDDRQ`) and raises FIRQ through PIA1; when firing at
`DISK_IDLE` it issues the completion NMI via `disk_intrq()`. -/
def disk_io_interrupt (s : disk_t) (fire : Bool) : disk_t × List disk_eff :=
  if fire then
    match s.state with
    | .DISK_IDLE => (s, disk_intrq s)
    | _ =>
      ({ s with regs := { s.regs with
          disk_status := s.regs.disk_status ||| 0b10 } }, [.eff_firq])
  else (s, [])

/-- `disk_init()` register and state values of `src/disk.c`. -/
def disk_init : disk_t :=
  { regs :=
    { disk_cmd := 0
      disk_status := 0b100        -- WDTrack0
      disk_track := 0
      disk_sector := 1
      disk_data := 0
      motor_on := 0
      disk_drive_num := 0
      disk_double_density := 0 }
    state := .DISK_IDLE
    nmi_inhibit := 1
    vdk_header_size := 0
    vdk_tracks := 0
    vdk_sides := 0
    buffer := fun _ => 0
    buffer_index := 0
    halted := false }

/-- One externally-triggered disk-controller operation: an access to
one of the five registered I/O addresses, or an interrupt tick. -/
inductive disk_op
  | op_cmd (data : Nat) (op : mem_operation_t)
  | op_track (data : Nat) (op : mem_operation_t)
  | op_sector (data : Nat) (op : mem_operation_t)
  | op_data (data : Nat) (op : mem_operation_t)
  | op_ctrl (data : Nat)
  | op_tick (fire : Bool)

/-- Dispatch one operation.  After `rpi_halt()` the emulator stops, so
a halted machine ignores further operations. -/
def disk_step (env : disk_env) (s : disk_t) (o : disk_op) : disk_t :=
  if s.halted then s else
  match o with
  | .op_cmd data op => (io_handler_wd2797_cmd_stat env s data op).1
  | .op_track data op => (io_handler_wd2797_track s data op).1
  | .op_sector data op => (io_handler_wd2797_sector s data op).1
  | .op_data data op => (io_handler_wd2797_data s data op).1
  | .op_ctrl data => (io_handler_drive_ctrl s data).1
  | .op_tick fire => (disk_io_interrupt s fire).1

/-- Run a sequence of disk-controller operations from power-on. -/
def disk_run (env : disk_env) (ops : List disk_op) : disk_t :=
  ops.foldl (disk_step env) disk_init

/-! ## VDG (src/vdg.c) -/

/-- `video_mode_t` of `src/vdg.c`. -/
inductive video_mode_t
  | ALPHA_INTERNAL
  | ALPHA_EXTERNAL
  | SEMI_GRAPHICS_4
  | SEMI_GRAPHICS_6
  | SEMI_GRAPHICS_8
  | SEMI_GRAPHICS_12
  | SEMI_GRAPHICS_24
  | GRAPHICS_1C
  | GRAPHICS_1R
  | GRAPHICS_2C
  | GRAPHICS_2R
  | GRAPHICS_3C
  | GRAPHICS_3R
  | GRAPHICS_6C
  | GRAPHICS_6R
  | DMA
  | UNDEFINED
deriving DecidableEq, Repr

/-- The `colors[]` translation table of `src/vdg.c` mapping the eight
VDG colours {green, yellow, blue, red, buff, cyan, magenta, orange}
to host frame-buffer palette indices, for the Linux build
(`RPI_BARE_METAL=0`, per the Makefile in the tree):
`[FB_GREEN, FB_YELLOW, FB_LIGHT_BLUE, FB_RED, FB_WHITE, FB_CYAN,
FB_LIGHT_MAGENTA, FB_BROWN]` = `[2, 14, 9, 4, 15, 3, 13, 6]`.
Entry 4 carries the source comment "TODO should be 'Buff'". -/
def colors : List Nat := [2, 14, 9, 4, 15, 3, 13, 6]

/-- The `RES_MEM` column of the `resolution[][3]` matrix of
`src/vdg.c`: bytes of video memory per page for each mode. -/
def resolution_mem : video_mode_t → Nat
  | .ALPHA_INTERNAL => 512
  | .ALPHA_EXTERNAL => 512
  | .SEMI_GRAPHICS_4 => 512
  | .SEMI_GRAPHICS_6 => 512
  | .SEMI_GRAPHICS_8 => 2048
  | .SEMI_GRAPHICS_12 => 3072
  | .SEMI_GRAPHICS_24 => 6144
  | .GRAPHICS_1C => 1024
  | .GRAPHICS_1R => 1024
  | .GRAPHICS_2C => 2048
  | .GRAPHICS_2R => 1536
  | .GRAPHICS_3C => 3072
  | .GRAPHICS_3R => 3072
  | .GRAPHICS_6C => 6144
  | .GRAPHICS_6R => 6144
  | .DMA => 6144
  | .UNDEFINED => 0

/-- The `RES_ROW_REP` column of the `resolution[][3]` matrix of
`src/vdg.c`: how many frame-buffer rows repeat each rendered row. -/
def resolution_row_rep : video_mode_t → Nat
  | .ALPHA_INTERNAL => 1
  | .ALPHA_EXTERNAL => 1
  | .SEMI_GRAPHICS_4 => 1
  | .SEMI_GRAPHICS_6 => 1
  | .SEMI_GRAPHICS_8 => 1
  | .SEMI_GRAPHICS_12 => 1
  | .SEMI_GRAPHICS_24 => 1
  | .GRAPHICS_1C => 3
  | .GRAPHICS_1R => 3
  | .GRAPHICS_2C => 3
  | .GRAPHICS_2R => 2
  | .GRAPHICS_3C => 2
  | .GRAPHICS_3R => 1
  | .GRAPHICS_6C => 1
  | .GRAPHICS_6R => 1
  | .DMA => 1
  | .UNDEFINED => 0

/-- Modelled from the spec: `FONT_WIDTH` lives in the missing header
`dragon/font.h`; §4.5 fixes the character cell at 8×12 pixels with
`FONT_WIDTH=8`. -/
def FONT_WIDTH : Nat := 8

/-- Modelled from the spec: `FONT_HEIGHT` lives in the missing header
`dragon/font.h`; §4.5 fixes the character cell at 8×12 pixels with
`FONT_HEIGHT=12`. -/
def FONT_HEIGHT : Nat := 12

/-- `vdg_get_mode()` of `src/vdg.c`, translated branch for branch.
The two consecutive branches guarded by the *same* condition
`sam_video_mode == 4 && (pia_video_mode & 0x02) == 0` (source lines
803-812) are kept as in the source, which makes the
`SEMI_GRAPHICS_24` arm unreachable.  The C `switch` on
`pia_video_mode & 0x0e` has no default, leaving `mode` at its
`UNDEFINED` initialisation when nothing matches. -/
def vdg_get_mode (sam_video_mode pia_video_mode : Nat) : video_mode_t :=
  if sam_video_mode = 7 then
    .DMA
  else if pia_video_mode &&& 0x10 ≠ 0 then
    if pia_video_mode &&& 0x0e = 0x00 then .GRAPHICS_1C
    else if pia_video_mode &&& 0x0e = 0x02 then .GRAPHICS_1R
    else if pia_video_mode &&& 0x0e = 0x04 then .GRAPHICS_2C
    else if pia_video_mode &&& 0x0e = 0x06 then .GRAPHICS_2R
    else if pia_video_mode &&& 0x0e = 0x08 then .GRAPHICS_3C
    else if pia_video_mode &&& 0x0e = 0x0a then .GRAPHICS_3R
    else if pia_video_mode &&& 0x0e = 0x0c then .GRAPHICS_6C
    else if pia_video_mode &&& 0x0e = 0x0e then .GRAPHICS_6R
    else .UNDEFINED
  else
    if sam_video_mode = 0 ∧ pia_video_mode &&& 0x02 = 0 then
      .ALPHA_INTERNAL
    else if sam_video_mode = 0 ∧ pia_video_mode &&& 0x02 ≠ 0 then
      .SEMI_GRAPHICS_6
    else if sam_video_mode = 2 ∧ pia_video_mode &&& 0x02 = 0 then
      .SEMI_GRAPHICS_8
    else if sam_video_mode = 4 ∧ pia_video_mode &&& 0x02 = 0 then
      .SEMI_GRAPHICS_12
    else if sam_video_mode = 4 ∧ pia_video_mode &&& 0x02 = 0 then
      .SEMI_GRAPHICS_24
    else .UNDEFINED

/-- One 8-pixel row of one character cell, as produced by the shared
inner loop of `vdg_render_alpha_semi4()` (and, byte identical, of
`vdg_render_semi_ext()`): pick foreground/background colours and the
bit pattern, then scan `pix_pos` from `0x80` down.  `font_img5x7` and
`semi_graph_4` are the ROM bitmap tables from the `dragon/` headers
(not in the tree), taken as parameters: table entry `t r` is the byte
`table[t][r]`. -/
def alpha_semi4_cell_row (font_img5x7 semi_graph_4 : Nat → Nat → Nat)
    (pia_video_mode : Nat) (c : Nat) (font_row : Nat) : List Nat :=
  let color_set := if pia_video_mode &&& 1 ≠ 0 then colors.getD 4 0 else colors.getD 0 0
  if c &&& 0x80 ≠ 0 then
    -- CHAR_SEMI_GRAPHICS: SG4 tile, colour from bits 6..4
    let fg_color := colors.getD ((c &&& 0b01110000) >>> 4) 0
    let bit_pattern := semi_graph_4 (c &&& 0x0f) font_row
    (List.range FONT_WIDTH).map fun font_col =>
      if bit_pattern &&& (0x80 >>> font_col) ≠ 0 then fg_color else 0
  else
    -- text: bits 5..0 index the font, CHAR_INVERSE swaps fg/bg
    let fg_color := if c &&& 0x40 ≠ 0 then 0 else color_set
    let bg_color := if c &&& 0x40 ≠ 0 then color_set else 0
    let bit_pattern := font_img5x7 (c &&& 0x3f) font_row
    (List.range FONT_WIDTH).map fun font_col =>
      if bit_pattern &&& (0x80 >>> font_col) ≠ 0 then fg_color else bg_color

/-- `vdg_render_alpha_semi4()` of `src/vdg.c`: 16 character rows ×
12 font rows × 32 columns × 8 pixels, reading video RAM through the
bus at `row * 32 + vdg_mem_base + col`. -/
def vdg_render_alpha_semi4 (font_img5x7 semi_graph_4 : Nat → Nat → Nat)
    (mem_read : Nat → Nat) (pia_video_mode vdg_mem_base : Nat) : List Nat :=
  (List.range 16).flatMap fun row =>
    (List.range FONT_HEIGHT).flatMap fun font_row =>
      (List.range 32).flatMap fun col =>
        alpha_semi4_cell_row font_img5x7 semi_graph_4 pia_video_mode
          (mem_read (col + (row * 32 + vdg_mem_base))) font_row

/-- `vdg_render_semi6()` of `src/vdg.c`: every byte is treated as an
SG6 tile; foreground colour from bits 7..6 offset by the CSS colour
set, tile bits 5..0 index `semi_graph_6` (a missing `dragon/` table,
taken as a parameter). -/
def vdg_render_semi6 (semi_graph_6 : Nat → Nat → Nat)
    (mem_read : Nat → Nat) (pia_video_mode vdg_mem_base : Nat) : List Nat :=
  let color_set := 4 * (pia_video_mode &&& 1)
  (List.range 16).flatMap fun row =>
    (List.range FONT_HEIGHT).flatMap fun font_row =>
      (List.range 32).flatMap fun col =>
        let c := mem_read (col + (row * 32 + vdg_mem_base))
        let fg_color := colors.getD (((c &&& 0b11000000) >>> 6) + color_set) 0
        let bit_pattern := semi_graph_6 (c &&& 0x3f) font_row
        (List.range FONT_WIDTH).map fun font_col =>
          if bit_pattern &&& (0x80 >>> font_col) ≠ 0 then fg_color else 0

/-- Segment count (`segments`) and scan lines per segment
(`seg_scan_lines`) chosen by `vdg_render_semi_ext()`:
`SEMIG8/12/24_SEG_HEIGHT` and `FONT_HEIGHT` divided by it; `none`
models the early `return` for other modes. -/
def semi_ext_params : video_mode_t → Option (Nat × Nat)
  | .SEMI_GRAPHICS_8 => some (4, FONT_HEIGHT / 4)
  | .SEMI_GRAPHICS_12 => some (6, FONT_HEIGHT / 6)
  | .SEMI_GRAPHICS_24 => some (12, FONT_HEIGHT / 12)
  | _ => none

/-- `vdg_render_semi_ext()` of `src/vdg.c`.  The source advances a
running `font_row` counter once per rendered scan line, wrapping at
`FONT_HEIGHT`; scan line number `(row * segments + seg_row) *
seg_scan_lines + scan_line` is rendered with `font_row` equal to that
number modulo `FONT_HEIGHT`, which is the closed form used here. -/
def vdg_render_semi_ext (font_img5x7 semi_graph_4 : Nat → Nat → Nat)
    (mem_read : Nat → Nat) (mode : video_mode_t)
    (pia_video_mode vdg_mem_base : Nat) : List Nat :=
  match semi_ext_params mode with
  | none => []
  | some (segments, seg_scan_lines) =>
    (List.range 16).flatMap fun row =>
      (List.range segments).flatMap fun seg_row =>
        (List.range seg_scan_lines).flatMap fun scan_line =>
          let row_address := (row * segments + seg_row) * 32 + vdg_mem_base
          let font_row :=
            ((row * segments + seg_row) * seg_scan_lines + scan_line) % FONT_HEIGHT
          (List.range 32).flatMap fun col =>
            alpha_semi4_cell_row font_img5x7 semi_graph_4 pia_video_mode
              (mem_read (col + row_address)) font_row

/-- The 8-bit inner loop of `vdg_render_resl_graph()`: `element` runs
from 7 down to 0, each set bit paints the foreground colour, and each
pixel is emitted twice except in `GRAPHICS_6R`. -/
def resl_pixels_of_byte (mode : video_mode_t) (fg_color pixels_byte : Nat) :
    List Nat :=
  (List.range 8).flatMap fun k =>
    let pixel := if (pixels_byte >>> (7 - k)) &&& 0x01 ≠ 0 then fg_color else 0
    if mode ≠ .GRAPHICS_6R then [pixel, pixel] else [pixel]

/-- `vdg_render_resl_graph()` of `src/vdg.c`.  The source streams
pixels into `pixel_row[256]` and flushes `row_rep` copies whenever the
buffer fills; because 256 is a multiple of the pixels produced per
byte (8 in `GRAPHICS_6R`, else 16), the flush happens exactly every
`256 / pixels_per_byte` bytes, giving this chunked form. -/
def vdg_render_resl_graph (mem_read : Nat → Nat) (mode : video_mode_t)
    (pia_video_mode vdg_mem_base : Nat) : List Nat :=
  let video_mem := resolution_mem mode
  let row_rep := resolution_row_rep mode
  let fg_color := if pia_video_mode &&& 1 ≠ 0 then colors.getD 4 0 else colors.getD 0 0
  let bytes_per_row := if mode = .GRAPHICS_6R then 32 else 16
  (List.range (video_mem / bytes_per_row)).flatMap fun r =>
    let pixel_row :=
      (List.range bytes_per_row).flatMap fun k =>
        resl_pixels_of_byte mode fg_color
          (mem_read (r * bytes_per_row + k + vdg_mem_base))
    (List.range row_rep).flatMap fun _ => pixel_row

/-- The 2-bit inner loop of `vdg_render_color_graph()`: `element` runs
over 6, 4, 2, 0; each colour pair indexes `colors[]` offset by the CSS
colour set, emitted twice (four times in `GRAPHICS_1C`). -/
def color_pixels_of_byte (mode : video_mode_t) (color_set pixels_byte : Nat) :
    List Nat :=
  (List.range 4).flatMap fun k =>
    let color := ((pixels_byte >>> (6 - 2 * k)) &&& 0x03) + color_set
    let pixel := colors.getD color 0
    if mode = .GRAPHICS_1C then [pixel, pixel, pixel, pixel] else [pixel, pixel]

/-- `vdg_render_color_graph()` of `src/vdg.c`; chunked the same way as
`vdg_render_resl_graph` (16 pixels per byte in `GRAPHICS_1C`, else 8,
so the `pixel_row` flush happens every 16 or 32 bytes). -/
def vdg_render_color_graph (mem_read : Nat → Nat) (mode : video_mode_t)
    (pia_video_mode vdg_mem_base : Nat) : List Nat :=
  let video_mem := resolution_mem mode
  let row_rep := resolution_row_rep mode
  let color_set := 4 * (pia_video_mode &&& 1)
  let bytes_per_row := if mode = .GRAPHICS_1C then 16 else 32
  (List.range (video_mem / bytes_per_row)).flatMap fun r =>
    let pixel_row :=
      (List.range bytes_per_row).flatMap fun k =>
        color_pixels_of_byte mode color_set
          (mem_read (r * bytes_per_row + k + vdg_mem_base))
    (List.range row_rep).flatMap fun _ => pixel_row

/-- Module-global state of `src/vdg.c` that `vdg_render()` reads and
writes. -/
structure vdg_t where
  video_ram_offset : Nat
  sam_video_mode : Nat
  pia_video_mode : Nat
  current_mode : video_mode_t
  prev_mode : video_mode_t

/-- `vdg_render()` of `src/vdg.c`: derive the mode, update
`current_mode`/`prev_mode`, and paint one full frame from
`video_ram_offset << 9` through the bus.  The `DMA` and illegal-mode
arms call `rpi_halt()` and produce no frame (`none`). -/
def vdg_render (font_img5x7 semi_graph_4 semi_graph_6 : Nat → Nat → Nat)
    (mem_read : Nat → Nat) (s : vdg_t) : vdg_t × Option (List Nat) :=
  let m := vdg_get_mode s.sam_video_mode s.pia_video_mode
  let s' := { s with current_mode := m, prev_mode := m }
  let vdg_mem_base := s.video_ram_offset <<< 9
  match m with
  | .ALPHA_INTERNAL | .SEMI_GRAPHICS_4 =>
      (s', some (vdg_render_alpha_semi4 font_img5x7 semi_graph_4 mem_read
                   s.pia_video_mode vdg_mem_base))
  | .SEMI_GRAPHICS_6 | .ALPHA_EXTERNAL =>
      (s', some (vdg_render_semi6 semi_graph_6 mem_read
                   s.pia_video_mode vdg_mem_base))
  | .GRAPHICS_1C | .GRAPHICS_2C | .GRAPHICS_3C | .GRAPHICS_6C =>
      (s', some (vdg_render_color_graph mem_read m
                   s.pia_video_mode vdg_mem_base))
  | .GRAPHICS_1R | .GRAPHICS_2R | .GRAPHICS_3R | .GRAPHICS_6R =>
      (s', some (vdg_render_resl_graph mem_read m
                   s.pia_video_mode vdg_mem_base))
  | .SEMI_GRAPHICS_8 | .SEMI_GRAPHICS_12 | .SEMI_GRAPHICS_24 =>
      (s', some (vdg_render_semi_ext font_img5x7 semi_graph_4 mem_read m
                   s.pia_video_mode vdg_mem_base))
  | .DMA => (s', none)
  | .UNDEFINED => (s', none)

/-! ## Cassette-tape capture trap (tape.c) -/

/-- `cas_tape_state_t` of `tape.c`. -/
inductive cas_tape_state_t
  | CAS_STREAM_IDLE
  | CAS_STREAM_LEADER
  | CAS_STREAM_SYNC
  | CAS_STREAM_HEADER
  | CAS_STREAM_DATA
  | CAS_STREAM_EOF
  | CAS_STREAM_WRITE
deriving DecidableEq, Repr

/-- `CAS_STREAM_SIZE` of `tape.c`: the 64 KiB capture buffer. -/
def CAS_STREAM_SIZE : Nat := 64 * 1024

/-- C `isalnum()` on a byte in the C locale. -/
def c_isalnum (b : Nat) : Bool :=
  (48 ≤ b && b ≤ 57) || (65 ≤ b && b ≤ 90) || (97 ≤ b && b ≤ 122)

/-- All persistent state of `tape.c`: the statics of
`io_handler_cas_tape` (`tape_state`, `count`, `file_name`, index `i`)
together with the module buffer `cas_stream_buffer` and the private
static `byte_count` counters of `cas_stream_header` (with its
`char_index`), `cas_stream_data` and `cas_stream_eof`, each
initialised to `-1`. -/
structure tape_t where
  tape_state : cas_tape_state_t
  count : Nat
  file_name : Nat → Nat
  i : Nat
  buf : Nat → Nat
  hdr_byte_count : Int
  hdr_char_index : Int
  data_byte_count : Int
  eof_byte_count : Int

/-- `tape_init()` state: everything zeroed, the private block counters
at their C static initialiser `-1`. -/
def tape_init : tape_t :=
  { tape_state := .CAS_STREAM_IDLE
    count := 0
    file_name := fun _ => 0
    i := 0
    buf := fun _ => 0
    hdr_byte_count := -1
    hdr_char_index := 0
    data_byte_count := -1
    eof_byte_count := -1 }

/-- `cas_stream_header()` of `tape.c`: first byte loads the block
length counter; later bytes count it down past the checksum (back to
`-1`), collecting up to 8 alphanumeric file-name characters. -/
def cas_stream_header (s : tape_t) (data_byte : Nat) : tape_t :=
  if s.hdr_byte_count < 0 then
    { s with hdr_byte_count := (data_byte : Int), hdr_char_index := 0,
             tape_state := .CAS_STREAM_HEADER }
  else
    let bc := s.hdr_byte_count - 1
    if bc < 0 then
      { s with hdr_byte_count := bc, tape_state := .CAS_STREAM_LEADER }
    else if 0 ≤ s.hdr_char_index ∧ s.hdr_char_index ≤ 7 ∧ c_isalnum data_byte then
      { s with hdr_byte_count := bc,
               file_name := fun n =>
                 if (n : Int) = s.hdr_char_index then data_byte
                 else if (n : Int) = s.hdr_char_index + 1 then 0
                 else s.file_name n,
               hdr_char_index := s.hdr_char_index + 1,
               tape_state := .CAS_STREAM_HEADER }
    else
      { s with hdr_byte_count := bc, tape_state := .CAS_STREAM_HEADER }

/-- `cas_stream_data()` of `tape.c`: load the data-block length, then
count down past the checksum and return to `LEADER`. -/
def cas_stream_data (s : tape_t) (data_byte : Nat) : tape_t :=
  if s.data_byte_count < 0 then
    { s with data_byte_count := (data_byte : Int),
             tape_state := .CAS_STREAM_DATA }
  else
    let bc := s.data_byte_count - 1
    if bc < 0 then
      { s with data_byte_count := bc, tape_state := .CAS_STREAM_LEADER }
    else
      { s with data_byte_count := bc, tape_state := .CAS_STREAM_DATA }

/-- `cas_stream_eof()` of `tape.c`: load the EOF-block length, then
count down past the checksum and move to `WRITE`. -/
def cas_stream_eof (s : tape_t) (data_byte : Nat) : tape_t :=
  if s.eof_byte_count < 0 then
    { s with eof_byte_count := (data_byte : Int),
             tape_state := .CAS_STREAM_EOF }
  else
    let bc := s.eof_byte_count - 1
    if bc < 0 then
      { s with eof_byte_count := bc, tape_state := .CAS_STREAM_WRITE }
    else
      { s with eof_byte_count := bc, tape_state := .CAS_STREAM_EOF }

/-- The body of the `if (count == 16)` block of
`io_handler_cas_tape()`: store the captured byte at index `i`,
advance `i` clamping at `CAS_STREAM_SIZE - 1`, run the stream state
machine, and, when the machine was sitting in `CAS_STREAM_WRITE`,
flush the first `i` buffer bytes as the output CAS file
(`loader_tape_fwrite(cas_stream_buffer, i)`) and reset. -/
def tape_capture_byte (s : tape_t) (data_byte : Nat) :
    tape_t × Option (List Nat) :=
  let s := { s with buf := fun n => if n = s.i then data_byte else s.buf n,
                    i := s.i + 1 }
  let s := if s.i = CAS_STREAM_SIZE then { s with i := CAS_STREAM_SIZE - 1 } else s
  match s.tape_state with
  | .CAS_STREAM_IDLE =>
      ({ s with tape_state :=
          if data_byte = 0x55 then .CAS_STREAM_LEADER else .CAS_STREAM_IDLE },
       none)
  | .CAS_STREAM_LEADER =>
      ({ s with tape_state :=
          if data_byte = 0x55 then .CAS_STREAM_LEADER
          else if data_byte = 0x3c then .CAS_STREAM_SYNC
          else .CAS_STREAM_IDLE }, none)
  | .CAS_STREAM_SYNC =>
      ({ s with tape_state :=
          if data_byte = 0x00 then .CAS_STREAM_HEADER
          else if data_byte = 0x01 then .CAS_STREAM_DATA
          else if data_byte = 0xff then .CAS_STREAM_EOF
          else .CAS_STREAM_IDLE }, none)
  | .CAS_STREAM_HEADER => (cas_stream_header s data_byte, none)
  | .CAS_STREAM_DATA => (cas_stream_data s data_byte, none)
  | .CAS_STREAM_EOF => (cas_stream_eof s data_byte, none)
  | .CAS_STREAM_WRITE =>
      -- cas_file_stream_complete = 1: flush the buffer as a CAS file
      ({ s with tape_state := .CAS_STREAM_IDLE,
                i := 0, buf := fun _ => 0 },
       some ((List.range s.i).map s.buf))

/-- `io_handler_cas_tape()` of `tape.c`, one invocation.  The handler
inspects the CPU snapshot: invocations with `pc` at `0xbe1c` or
`0xbe3f` (inside the ROM `CasByteOut` routine) advance `count`; when
`count` reaches 16 one tape byte is captured by reading the bus at
the address held in the hardware stack pointer `S`
(`mem_read(cpu_state.s)`). -/
def io_handler_cas_tape (mem_read : Nat → Nat) (pc s_reg : Nat)
    (s : tape_t) : tape_t × Option (List Nat) :=
  let count := if pc = 0xbe1c ∨ pc = 0xbe3f then s.count + 1 else s.count
  if count = 16 then
    tape_capture_byte { s with count := 0 } (mem_read s_reg)
  else
    ({ s with count := count }, none)

/-- Run the tape FSM over a list of captured bytes, collecting every
flushed output file. -/
def tape_run_bytes (s : tape_t) : List Nat → tape_t × List (List Nat)
  | [] => (s, [])
  | b :: bs =>
    let r := tape_capture_byte s b
    let rest := tape_run_bytes r.1 bs
    (rest.1, r.2.toList ++ rest.2)

/-- Run a list of raw handler invocations, each given as a
(pc, S register) pair, against a fixed bus. -/
def tape_run_calls (mem_read : Nat → Nat) (s : tape_t) :
    List (Nat × Nat) → tape_t × List (List Nat)
  | [] => (s, [])
  | c :: cs =>
    let r := io_handler_cas_tape mem_read c.1 c.2 s
    let rest := tape_run_calls mem_read r.1 cs
    (rest.1, r.2.toList ++ rest.2)

/-! ## General helper lemmas -/

theorem length_flatMap_range_const (f : Nat → List Nat) (k : Nat)
    (h : ∀ x, (f x).length = k) (n : Nat) :
    ((List.range n).flatMap f).length = n * k := by
  induction n with
  | zero => simp
  | succ m ih =>
    rw [List.range_succ, List.flatMap_append]
    simp [ih, h, Nat.succ_mul]

/-! ## Claim theorems -/

/-- C1: the §4.5 mode table demands, for `sam.video_mode = 4` with
PIA `^A/G = 0`, "SG12 or SG24 (size-selected by byte count)"; the
decoder in the source can never produce `SEMI_GRAPHICS_24` (its arm
repeats the `SEMI_GRAPHICS_12` condition verbatim and is dead), so it
answers `SEMI_GRAPHICS_12` uniformly, with no byte-count selection.
(For `sam.video_mode = 7` the decoder does return `DMA`.) -/
theorem vdg_get_mode_sam4_sg12_only (pia : Nat) (h10 : pia &&& 0x10 = 0) :
    vdg_get_mode 4 pia ≠ .SEMI_GRAPHICS_24 ∧
    (pia &&& 0x02 = 0 → vdg_get_mode 4 pia = .SEMI_GRAPHICS_12) ∧
    vdg_get_mode 7 pia = .DMA := by
  unfold vdg_get_mode
  by_cases h2 : pia &&& 0x02 = 0 <;> simp [h10, h2]

theorem vdg_get_mode_sam4_sg12_only_witness :
    ((0 : Nat) &&& 0x10 = 0) ∧
    (vdg_get_mode 4 0 ≠ .SEMI_GRAPHICS_24 ∧
      ((0 : Nat) &&& 0x02 = 0 → vdg_get_mode 4 0 = .SEMI_GRAPHICS_12) ∧
      vdg_get_mode 7 0 = .DMA) :=
  ⟨by decide, vdg_get_mode_sam4_sg12_only 0 (by decide)⟩

/-- C5 counterexample: with CSS = 1 (PIA colour-set bit set) a text
cell (bit 7 clear) that has a lit font pixel is painted
`colors[4] = FB_WHITE = 15` (the source marks this entry
"TODO should be 'Buff'"), not orange: the VDG colour `orange` is
entry 7 of the translation table, `colors[7] = FB_BROWN = 6`. -/
theorem alpha_text_css1_not_orange :
    alpha_semi4_cell_row (fun _ _ => 0xff) (fun _ _ => 0) 1 0x01 0 =
      List.replicate 8 15 ∧
    colors.getD 4 0 = 15 ∧ colors.getD 7 0 = 6 ∧ (15 : Nat) ≠ 6 := by
  constructor
  · rfl
  · exact ⟨rfl, rfl, by decide⟩

/-- C5 (amended): in the alphanumeric/SG4 render path a character
cell with bit 7 clear is painted with foreground `colors[0] =
FB_GREEN = 2` when the PIA CSS bit is 0 and `colors[4] = FB_WHITE =
15` (the buff placeholder) when CSS is 1, over a black (0)
background, the two swapped when the inverse bit 6 is set. -/
theorem alpha_text_foreground_colors
    (font_img5x7 semi_graph_4 : Nat → Nat → Nat) (pia c fr : Nat)
    (h7 : c &&& 0x80 = 0) :
    alpha_semi4_cell_row font_img5x7 semi_graph_4 pia c fr =
      ((List.range 8).map fun j =>
        if font_img5x7 (c &&& 0x3f) fr &&& (0x80 >>> j) ≠ 0 then
          (if c &&& 0x40 ≠ 0 then 0 else if pia &&& 1 ≠ 0 then 15 else 2)
        else
          (if c &&& 0x40 ≠ 0 then (if pia &&& 1 ≠ 0 then 15 else 2) else 0)) := by
  unfold alpha_semi4_cell_row FONT_WIDTH
  by_cases h6 : c &&& 0x40 ≠ 0 <;> by_cases hcss : pia &&& 1 ≠ 0 <;>
    simp [h7, h6, hcss, colors]

theorem alpha_text_foreground_colors_witness :
    ((0x41 : Nat) &&& 0x80 = 0) ∧
    (alpha_semi4_cell_row (fun _ _ => 0x80) (fun _ _ => 0) 0 0x41 0 =
      ((List.range 8).map fun j =>
        if (fun _ _ => 0x80 : Nat → Nat → Nat) (0x41 &&& 0x3f) 0 &&& (0x80 >>> j) ≠ 0 then
          (if (0x41 : Nat) &&& 0x40 ≠ 0 then 0 else if (0 : Nat) &&& 1 ≠ 0 then 15 else 2)
        else
          (if (0x41 : Nat) &&& 0x40 ≠ 0 then
            (if (0 : Nat) &&& 1 ≠ 0 then 15 else 2) else 0))) :=
  ⟨by decide,
   alpha_text_foreground_colors (fun _ _ => 0x80) (fun _ _ => 0) 0 0x41 0 (by decide)⟩

/-- C8: while the Busy bit of the status register is set, writing any
command byte other than FORCE INTERRUPT (0xD0) to the command
register only updates the latched command byte: the controller
state, the other registers, the buffer and its index are untouched,
no image I/O effect is emitted, and no interrupt line is pulsed. -/
theorem cmd_write_while_busy_only_latches
    (env : disk_env) (s : disk_t) (d : Nat)
    (hbusy : s.regs.disk_status &&& 1 ≠ 0) (hd : d ≠ 0xd0) :
    io_handler_wd2797_cmd_stat env s d .MEM_WRITE =
      ({ s with regs := { s.regs with disk_cmd := d } }, [], 0) := by
  simp only [io_handler_wd2797_cmd_stat]
  rw [if_neg hd, if_neg (by simpa using hbusy)]

theorem cmd_write_while_busy_only_latches_witness :
    (({ disk_init with
        regs := { disk_init.regs with disk_status := 1 } } : disk_t).regs.disk_status
        &&& 1 ≠ 0) ∧
    ((0x88 : Nat) ≠ 0xd0) ∧
    (io_handler_wd2797_cmd_stat ⟨.FILE_VDK, fun _ => 0⟩
        { disk_init with regs := { disk_init.regs with disk_status := 1 } } 0x88
        .MEM_WRITE =
      ({ disk_init with
          regs := { disk_init.regs with disk_status := 1, disk_cmd := 0x88 } },
       [], 0)) :=
  ⟨by decide, by decide,
   cmd_write_while_busy_only_latches ⟨.FILE_VDK, fun _ => 0⟩
     { disk_init with regs := { disk_init.regs with disk_status := 1 } } 0x88
     (by decide) (by decide)⟩

/-- C9: a write to the WD2797 track register (0xFF41) or sector
register (0xFF42) is accepted only when the whole status register is
zero (the C guard uses the logical `&&`): while the status is
non-zero — for example with Track0 set after RESTORE — the register
keeps its value and the handler returns the existing register
content. -/
theorem track_sector_write_ignored_when_status_nonzero
    (s : disk_t) (d : Nat) (op : mem_operation_t)
    (h : s.regs.disk_status ≠ 0) :
    io_handler_wd2797_track s d op = (s, [], s.regs.disk_track) ∧
    io_handler_wd2797_sector s d op = (s, [], s.regs.disk_sector) := by
  constructor <;>
    simp [io_handler_wd2797_track, io_handler_wd2797_sector, h]

/-- Modelled from the spec: §8 "Disk READ SECTOR" locates a sector at
`header + ((track*sides)+side)*18*256 + (sector-1)*256`, with
`header` and `sides` taken from the VDK header and `side` the side
select (the emulator always issues SSO = 0, i.e. side 0). -/
def spec_read_sector_offset (header sides side track sector : Nat) : Nat :=
  header + ((track * sides) + side) * 18 * 256 + (sector - 1) * 256

/-- `n` successive CPU reads of the WD2797 data register 0xFF43,
collecting the returned bytes in order. -/
def wd2797_data_reads : Nat → disk_t → disk_t × List Nat
  | 0, s => (s, [])
  | n + 1, s =>
    let r := io_handler_wd2797_data s 0 .MEM_READ
    let rest := wd2797_data_reads n r.1
    (rest.1, r.2.2 :: rest.2)

/-- While the controller is in `DISK_READ`, successive data-register
reads stream the track buffer from the current `buffer_index`. -/
theorem data_reads_stream_buffer (n : Nat) :
    ∀ s : disk_t, s.state = .DISK_READ → s.buffer_index + n ≤ 256 →
      (wd2797_data_reads n s).2 =
        (List.range n).map (fun k => s.buffer (s.buffer_index + k)) := by
  induction n with
  | zero => intro s _ _; simp [wd2797_data_reads]
  | succ m ih =>
    intro s hs hb
    simp only [wd2797_data_reads, io_handler_wd2797_data, hs]
    by_cases hend : s.buffer_index + 1 = 256
    · have hm : m = 0 := by omega
      subst hm
      simp [hend, wd2797_data_reads, List.range_succ]
    · have hrec := ih { s with
        regs := { s.regs with
          disk_data := s.buffer s.buffer_index,
          disk_status := s.regs.disk_status &&& 0xfd },
        buffer_index := s.buffer_index + 1 } (by simp [hs]) (by simp; omega)
      simp only [hs] at hrec
      simp only [hend, if_false, if_neg hend] at hrec ⊢
      rw [hrec]
      rw [List.range_succ_eq_map]
      simp only [List.map_cons, List.map_map]
      congr 1
      apply List.map_congr_left
      intro a _
      simp only [Function.comp_apply]
      congr 1
      omega

/-- C2 (amended): for a single-sided VDK image (`sides = 1`, the only
geometry the emulator addresses; it always reads side 0), a READ
SECTOR command (0x88) followed by 256 data-register reads returns
exactly the image bytes starting at the §8 offset
`header + ((track*sides)+side)*18*256 + (sector-1)*256` with
`side = 0`, `header` being the little-endian word at image offset 2. -/
theorem read_sector_streams_image_single_sided
    (img : Nat → Nat) (s : disk_t)
    (hbusy : s.regs.disk_status &&& 1 = 0)
    (hsides : img 9 = 1) (hsec : 1 ≤ s.regs.disk_sector) :
    (wd2797_data_reads 256
        (io_handler_wd2797_cmd_stat ⟨.FILE_VDK, img⟩ s 0x88 .MEM_WRITE).1).2 =
      (List.range 256).map (fun k =>
        img (spec_read_sector_offset (img 2 + 256 * img 3) (img 9) 0
              s.regs.disk_track s.regs.disk_sector + k)) := by
  have hS1 : (io_handler_wd2797_cmd_stat ⟨.FILE_VDK, img⟩ s 0x88 .MEM_WRITE).1 =
      { s with
        regs := { s.regs with disk_cmd := 0x88, disk_status := 1 },
        vdk_header_size := img 2 + 256 * img 3,
        vdk_tracks := img 8,
        vdk_sides := img 9,
        state := .DISK_READ,
        buffer := fun k => if k < 256 then
          img (disk_to_image_offset s.regs.disk_track s.regs.disk_sector +
                (img 2 + 256 * img 3) + k)
          else s.buffer k,
        buffer_index := 0 } := by
    simp [io_handler_wd2797_cmd_stat, vdk_read_header, hbusy,
      show ¬((136 : Nat) &&& 252 = 0) from by decide,
      show ¬((136 : Nat) &&& 252 = 16) from by decide]
  rw [hS1, data_reads_stream_buffer 256 _ rfl (by simp)]
  apply List.map_congr_left
  intro k hk
  have hk' : k < 256 := List.mem_range.mp hk
  simp only [Nat.zero_add, if_pos hk', spec_read_sector_offset,
    disk_to_image_offset, hsides]
  congr 1
  have := Nat.sub_add_cancel hsec
  omega

theorem read_sector_streams_image_single_sided_witness :
    (disk_init.regs.disk_status &&& 1 = 0) ∧
    ((fun n => if n = 9 then 1 else 0 : Nat → Nat) 9 = 1) ∧
    (1 ≤ disk_init.regs.disk_sector) ∧
    ((wd2797_data_reads 256
        (io_handler_wd2797_cmd_stat ⟨.FILE_VDK, fun n => if n = 9 then 1 else 0⟩
          disk_init 0x88 .MEM_WRITE).1).2 =
      (List.range 256).map (fun k =>
        (fun n => if n = 9 then 1 else 0 : Nat → Nat)
          (spec_read_sector_offset
            ((fun n => if n = 9 then 1 else 0 : Nat → Nat) 2 +
              256 * (fun n => if n = 9 then 1 else 0 : Nat → Nat) 3)
            ((fun n => if n = 9 then 1 else 0 : Nat → Nat) 9) 0
            disk_init.regs.disk_track disk_init.regs.disk_sector + k))) :=
  ⟨by decide, by decide, by decide,
   read_sector_streams_image_single_sided (fun n => if n = 9 then 1 else 0)
     disk_init (by decide) (by decide) (by decide)⟩

/-- The concrete two-sided VDK image of the C2 counterexample:
header size 12 (bytes 2..3), 40 tracks (byte 8), 2 sides (byte 9);
the sector the code reads for track 1 / sector 1 starts at
`12 + 1*18*256 = 4620` and holds 0xAA, while the §8 formula with
`sides = 2` points at `12 + (1*2)*18*256 = 9228`, which holds 0xBB. -/
def c2_img : Nat → Nat := fun n =>
  if n = 2 then 12
  else if n = 8 then 40
  else if n = 9 then 2
  else if n = 4620 then 0xaa
  else if n = 9228 then 0xbb
  else 0

/-- Controller state after, from power-on: a data-register write of 1,
a SEEK (0x10) to track 1, and a READ SECTOR (0x88) command, with the
two-sided image `c2_img` mounted as VDK. -/
def c2_state : disk_t :=
  (io_handler_wd2797_cmd_stat ⟨.FILE_VDK, c2_img⟩
    (io_handler_wd2797_cmd_stat ⟨.FILE_VDK, c2_img⟩
      (io_handler_wd2797_data disk_init 1 .MEM_WRITE).1 0x10 .MEM_WRITE).1
    0x88 .MEM_WRITE).1

/-- C2 counterexample: with the mounted two-sided VDK image `c2_img`
(track 1, sector 1), the first DATA read returns the image byte the
code fetched from offset `12 + 18*256 = 4620` (0xAA), which differs
from the image byte at the claim's offset
`header + ((track*sides)+side)*18*256 + (sector-1)*256 = 9228`
(0xBB): `disk_to_image_offset` ignores the VDK `sides` field. -/
theorem read_sector_spec_offset_counterexample :
    (io_handler_wd2797_data c2_state 0 .MEM_READ).2.2 = 0xaa ∧
    c2_img (spec_read_sector_offset (c2_img 2 + 256 * c2_img 3) (c2_img 9) 0
        c2_state.regs.disk_track c2_state.regs.disk_sector) = 0xbb ∧
    ((0xaa : Nat) ≠ 0xbb) := by
  refine ⟨by decide, by decide, by decide⟩

theorem track_sector_write_ignored_when_status_nonzero_witness :
    (disk_init.regs.disk_status ≠ 0) ∧
    (io_handler_wd2797_track disk_init 7 .MEM_WRITE =
        (disk_init, [], disk_init.regs.disk_track) ∧
      io_handler_wd2797_sector disk_init 7 .MEM_WRITE =
        (disk_init, [], disk_init.regs.disk_sector)) :=
  ⟨by decide,
   track_sector_write_ignored_when_status_nonzero disk_init 7 .MEM_WRITE (by decide)⟩

/-- C10: every store into the 64 KiB capture buffer happens at the
current index `i ≤ 65535`; the index advances by one per captured
byte, clamped at 65535 (`min (i+1) 65535`), so an over-long stream
keeps overwriting the final cell, and a flushed output file carries
at most 65535 bytes (after which the index restarts at 0). -/
theorem tape_capture_buffer_safety (s : tape_t) (b : Nat)
    (hi : s.i ≤ 65535) :
    (tape_capture_byte s b).1.i ≤ 65535 ∧
    ((tape_capture_byte s b).2 = none →
      (tape_capture_byte s b).1.i = min (s.i + 1) 65535 ∧
      (tape_capture_byte s b).1.buf = fun n => if n = s.i then b else s.buf n) ∧
    (∀ f, (tape_capture_byte s b).2 = some f →
      f.length ≤ 65535 ∧ (tape_capture_byte s b).1.i = 0) := by
  unfold tape_capture_byte
  by_cases hcl : s.i + 1 = CAS_STREAM_SIZE <;>
    rw [CAS_STREAM_SIZE] at hcl <;>
    cases hts : s.tape_state <;>
      simp only [CAS_STREAM_SIZE, hts, hcl, if_pos, if_true, if_neg, if_false,
        reduceIte, cas_stream_header, cas_stream_data, cas_stream_eof] <;>
      (try split_ifs) <;>
      (try simp) <;> (try omega)

theorem tape_capture_buffer_safety_witness :
    (tape_init.i ≤ 65535) ∧
    ((tape_capture_byte tape_init 0x55).1.i ≤ 65535 ∧
      ((tape_capture_byte tape_init 0x55).2 = none →
        (tape_capture_byte tape_init 0x55).1.i = min (tape_init.i + 1) 65535 ∧
        (tape_capture_byte tape_init 0x55).1.buf =
          fun n => if n = tape_init.i then 0x55 else tape_init.buf n) ∧
      (∀ f, (tape_capture_byte tape_init 0x55).2 = some f →
        f.length ≤ 65535 ∧ (tape_capture_byte tape_init 0x55).1.i = 0)) :=
  ⟨by decide, tape_capture_buffer_safety tape_init 0x55 (by decide)⟩

/-- C4 counterexample: sixteen consecutive invocations of the
cassette-trap handler whose CPU snapshot has `pc = 0x1234` (outside
the ROM `CasByteOut` routine) capture nothing: the index stays 0, no
byte is appended and no file is produced — the handler only counts
invocations taken with `pc` at 0xbe1c or 0xbe3f. -/
theorem tape_trap_unfiltered_invocations_capture_nothing :
    (tape_run_calls (fun _ => 0x55) tape_init
        (List.replicate 16 (0x1234, 0x100))).1.i = 0 ∧
    (tape_run_calls (fun _ => 0x55) tape_init
        (List.replicate 16 (0x1234, 0x100))).1.tape_state = .CAS_STREAM_IDLE ∧
    (tape_run_calls (fun _ => 0x55) tape_init
        (List.replicate 16 (0x1234, 0x100))).2 = [] := by
  refine ⟨by decide, by decide, by decide⟩

/-- C4 (amended): counting only invocations whose program counter sits
at 0xbe1c or 0xbe3f (inside the ROM `CasByteOut` routine), every 16th
such invocation — and no other invocation — captures one byte, read
via the bus from the address held in the hardware stack pointer `S`,
and appends it to the capture buffer (`tape_capture_byte`). -/
theorem tape_trap_sixteenth_rom_invocation_captures
    (mem_read : Nat → Nat) (pc s_reg : Nat) (s : tape_t)
    (hc : s.count ≤ 15) :
    (((pc = 0xbe1c ∨ pc = 0xbe3f) ∧ s.count = 15) →
        io_handler_cas_tape mem_read pc s_reg s =
          tape_capture_byte { s with count := 0 } (mem_read s_reg)) ∧
    ((pc = 0xbe1c ∨ pc = 0xbe3f) → s.count < 15 →
        io_handler_cas_tape mem_read pc s_reg s =
          ({ s with count := s.count + 1 }, none)) ∧
    (¬(pc = 0xbe1c ∨ pc = 0xbe3f) →
        io_handler_cas_tape mem_read pc s_reg s = (s, none)) := by
  refine ⟨?_, ?_, ?_⟩
  · rintro ⟨hpc, h15⟩
    simp [io_handler_cas_tape, if_pos hpc, h15]
  · intro hpc hlt
    have hne : ¬(s.count + 1 = 16) := by omega
    simp [io_handler_cas_tape, if_pos hpc, hne]
  · intro hpc
    have hne : ¬(s.count = 16) := by omega
    simp [io_handler_cas_tape, if_neg hpc, hne]

theorem tape_trap_sixteenth_rom_invocation_captures_witness :
    (({ tape_init with count := 15 } : tape_t).count ≤ 15) ∧
    ((((0xbe1c : Nat) = 0xbe1c ∨ (0xbe1c : Nat) = 0xbe3f) ∧
        ({ tape_init with count := 15 } : tape_t).count = 15 →
        io_handler_cas_tape (fun _ => 0x42) 0xbe1c 0
            { tape_init with count := 15 } =
          tape_capture_byte
            { ({ tape_init with count := 15 } : tape_t) with count := 0 }
            ((fun _ => 0x42 : Nat → Nat) 0)) ∧
      (((0xbe1c : Nat) = 0xbe1c ∨ (0xbe1c : Nat) = 0xbe3f) →
        ({ tape_init with count := 15 } : tape_t).count < 15 →
        io_handler_cas_tape (fun _ => 0x42) 0xbe1c 0
            { tape_init with count := 15 } =
          ({ ({ tape_init with count := 15 } : tape_t) with
              count := ({ tape_init with count := 15 } : tape_t).count + 1 },
            none)) ∧
      (¬((0xbe1c : Nat) = 0xbe1c ∨ (0xbe1c : Nat) = 0xbe3f) →
        io_handler_cas_tape (fun _ => 0x42) 0xbe1c 0
            { tape_init with count := 15 } =
          ({ tape_init with count := 15 }, none))) :=
  ⟨by decide,
   tape_trap_sixteenth_rom_invocation_captures (fun _ => 0x42) 0xbe1c 0
     { tape_init with count := 15 } (by decide)⟩

/-- Busy-bit preservation through the command/status handler. -/
theorem busy_after_cmd_stat (env : disk_env) (s : disk_t)
    (d : Nat) (op : mem_operation_t)
    (h : s.state ≠ .DISK_IDLE → s.regs.disk_status.testBit 0 = true) :
    (io_handler_wd2797_cmd_stat env s d op).1.state ≠ .DISK_IDLE →
      (io_handler_wd2797_cmd_stat env s d op).1.regs.disk_status.testBit 0 =
        true := by
  cases op with
  | MEM_READ => simpa [io_handler_wd2797_cmd_stat] using h
  | MEM_WRITE =>
    by_cases h0 : d = 0xd0
    · simp [io_handler_wd2797_cmd_stat, h0]
    · by_cases h1 : s.regs.disk_status &&& 1 = 0
      · by_cases h2 : d &&& 0xfc = 0
        · simp [io_handler_wd2797_cmd_stat, h0, h1, h2]
        · by_cases h3 : d &&& 0xfc = 0x10
          · simp [io_handler_wd2797_cmd_stat, h0, h1, h2, h3]
          · by_cases h4 : d = 0x88
            · subst h4
              by_cases h5 : env.img_type = .FILE_NONE
              · simpa [io_handler_wd2797_cmd_stat, h0, h1, h2, h3, h5] using h
              · simp [io_handler_wd2797_cmd_stat, h0, h1, h2, h3, h5]
            · by_cases h6 : d = 0xa8
              · subst h6
                by_cases h5 : env.img_type = .FILE_NONE
                · simpa [io_handler_wd2797_cmd_stat, h0, h1, h2, h3, h4, h5]
                    using h
                · simp [io_handler_wd2797_cmd_stat, h0, h1, h2, h3, h4, h5]
              · by_cases h7 : d = 0xc0
                · subst h7
                  simp [io_handler_wd2797_cmd_stat, h0, h1, h2, h3, h4, h6]
                · by_cases h8 : d = 0xf4
                  · subst h8
                    by_cases h5 : env.img_type = .FILE_NONE
                    · simpa [io_handler_wd2797_cmd_stat,
                        h0, h1, h2, h3, h4, h5, h6, h7] using h
                    · simp [io_handler_wd2797_cmd_stat,
                        h0, h1, h2, h3, h4, h5, h6, h7]
                  · simp [io_handler_wd2797_cmd_stat,
                      h0, h1, h2, h3, h4, h6, h7, h8]
      · simp only [io_handler_wd2797_cmd_stat]
        rw [if_neg h0, if_neg h1]
        exact fun hst => h hst

theorem mod_two_of_testBit0 {a : Nat} (h : a.testBit 0 = true) : a % 2 = 1 := by
  simpa [Nat.testBit_zero] using h

/-- Busy-bit preservation through the data-register handler. -/
theorem busy_after_data (s : disk_t) (d : Nat) (op : mem_operation_t)
    (h : s.state ≠ .DISK_IDLE → s.regs.disk_status.testBit 0 = true) :
    (io_handler_wd2797_data s d op).1.state ≠ .DISK_IDLE →
      (io_handler_wd2797_data s d op).1.regs.disk_status.testBit 0 = true := by
  have hb : Nat.testBit 253 0 = true := by decide
  rcases hsd : s.state <;> cases op <;>
    simp only [io_handler_wd2797_data, hsd]
  case DISK_IDLE.MEM_READ => simpa [hsd] using h
  case DISK_IDLE.MEM_WRITE => simpa [hsd] using h
  case DISK_READ.MEM_READ =>
    have hbusy := h (by simp [hsd])
    by_cases hbi : s.buffer_index + 1 = 256 <;>
      simp [hbi, Nat.testBit_land, hbusy, hb, mod_two_of_testBit0 hbusy]
  case DISK_READ.MEM_WRITE => simpa [hsd] using h
  case DISK_WRITE.MEM_WRITE =>
    have hbusy := h (by simp [hsd])
    by_cases hbi : s.buffer_index + 1 = 256 <;>
      simp [hbi, Nat.testBit_land, hbusy, hb, mod_two_of_testBit0 hbusy]
  case DISK_WRITE.MEM_READ => simpa [hsd] using h
  case DISK_READ_ID.MEM_READ =>
    have hbusy := h (by simp [hsd])
    by_cases hbi : s.buffer_index + 1 = 6 <;>
      simp [hbi, Nat.testBit_land, hbusy, hb, mod_two_of_testBit0 hbusy]
  case DISK_READ_ID.MEM_WRITE => simpa [hsd] using h
  case DISK_WRITE_TRK.MEM_WRITE =>
    have hbusy := h (by simp [hsd])
    by_cases hb1 : s.buffer_index < 111
    · simp [hb1, Nat.testBit_land, hbusy, hb, mod_two_of_testBit0 hbusy]
    · by_cases hb2 : s.buffer_index < 111 + 4 <;>
        simp [hb1, hb2, Nat.testBit_land, hbusy, hb, mod_two_of_testBit0 hbusy]
  case DISK_WRITE_TRK.MEM_READ => simpa [hsd] using h

/-- The strengthened inductive invariant behind C6: away from
`DISK_IDLE` the Busy bit (bit 0) of the status register is set, and
every disk-controller operation preserves this. -/
theorem disk_step_preserves_busy (env : disk_env) (s : disk_t) (o : disk_op)
    (h : s.state ≠ .DISK_IDLE → s.regs.disk_status.testBit 0 = true) :
    (disk_step env s o).state ≠ .DISK_IDLE →
      (disk_step env s o).regs.disk_status.testBit 0 = true := by
  unfold disk_step
  by_cases hh : s.halted
  · simpa [hh] using h
  · simp only [hh, Bool.false_eq_true, if_false, reduceIte]
    cases o with
    | op_cmd d op => exact busy_after_cmd_stat env s d op h
    | op_track d op =>
      by_cases hc : s.regs.disk_status = 0 ∧ op = .MEM_WRITE <;>
        simpa [io_handler_wd2797_track, hc] using h
    | op_sector d op =>
      by_cases hc : s.regs.disk_status = 0 ∧ op = .MEM_WRITE <;>
        simpa [io_handler_wd2797_sector, hc] using h
    | op_data d op => exact busy_after_data s d op h
    | op_ctrl d =>
      by_cases hc : d &&& 0b11 ≠ s.regs.disk_drive_num <;>
        simpa [io_handler_drive_ctrl, hc] using h
    | op_tick fire =>
      cases fire with
      | false => simpa [disk_io_interrupt] using h
      | true =>
        rcases hsd : s.state
        · simpa [disk_io_interrupt, hsd] using h
        all_goals
          have hbusy := h (by simp [hsd])
          simp [disk_io_interrupt, hsd, Nat.testBit_lor, hbusy,
            mod_two_of_testBit0 hbusy]

/-- C6: after any sequence of disk-controller operations from
power-on (command/status, track, sector and data register accesses,
drive-control writes, interrupt ticks), whenever the controller state
is not `DISK_IDLE`, the Busy bit (bit 0) of the status register is
set or a DRQ pulse is pending (bit 1): the code in fact maintains the
stronger left disjunct throughout. -/
theorem disk_busy_or_drq_invariant (env : disk_env) (ops : List disk_op)
    (h : (disk_run env ops).state ≠ .DISK_IDLE) :
    (disk_run env ops).regs.disk_status.testBit 0 = true ∨
      (disk_run env ops).regs.disk_status.testBit 1 = true := by
  left
  revert h
  have main : ∀ s : disk_t,
      (s.state ≠ .DISK_IDLE → s.regs.disk_status.testBit 0 = true) →
      ((ops.foldl (disk_step env) s).state ≠ .DISK_IDLE →
        (ops.foldl (disk_step env) s).regs.disk_status.testBit 0 = true) := by
    induction ops with
    | nil => intro s hs; exact hs
    | cons o os ih =>
      intro s hs
      exact ih (disk_step env s o) (disk_step_preserves_busy env s o hs)
  exact main disk_init (fun hC => absurd rfl hC)

theorem length_alpha_semi4_cell_row (f s4 : Nat → Nat → Nat)
    (pia c fr : Nat) : (alpha_semi4_cell_row f s4 pia c fr).length = 8 := by
  unfold alpha_semi4_cell_row FONT_WIDTH
  split_ifs <;> simp

theorem length_map_range_fw (p : Nat → Nat) :
    ((List.range FONT_WIDTH).map p).length = 8 := by
  simp [FONT_WIDTH]

theorem length_vdg_render_alpha_semi4 (f s4 : Nat → Nat → Nat)
    (mem : Nat → Nat) (pia base : Nat) :
    (vdg_render_alpha_semi4 f s4 mem pia base).length = 49152 := by
  unfold vdg_render_alpha_semi4
  exact (length_flatMap_range_const _ _ (fun row =>
    length_flatMap_range_const _ _ (fun fr =>
      length_flatMap_range_const _ _ (fun col =>
        length_alpha_semi4_cell_row f s4 pia
          (mem (col + (row * 32 + base))) fr) 32) FONT_HEIGHT) 16).trans
    (by norm_num [FONT_HEIGHT])

theorem length_vdg_render_semi6 (s6 : Nat → Nat → Nat)
    (mem : Nat → Nat) (pia base : Nat) :
    (vdg_render_semi6 s6 mem pia base).length = 49152 := by
  unfold vdg_render_semi6
  exact (length_flatMap_range_const _ _ (fun row =>
    length_flatMap_range_const _ _ (fun fr =>
      length_flatMap_range_const _ _ (fun col =>
        length_map_range_fw _) 32) FONT_HEIGHT) 16).trans
    (by norm_num [FONT_HEIGHT])

theorem length_semi_ext_8 (f s4 : Nat → Nat → Nat)
    (mem : Nat → Nat) (pia base : Nat) :
    (vdg_render_semi_ext f s4 mem .SEMI_GRAPHICS_8 pia base).length = 49152 := by
  unfold vdg_render_semi_ext semi_ext_params
  exact (length_flatMap_range_const _ _ (fun row =>
    length_flatMap_range_const _ _ (fun segrow =>
      length_flatMap_range_const _ _ (fun sl =>
        length_flatMap_range_const _ _ (fun col =>
          length_alpha_semi4_cell_row f s4 pia _ _) 32) (FONT_HEIGHT / 4)) 4) 16).trans
    (by norm_num [FONT_HEIGHT])

theorem length_semi_ext_12 (f s4 : Nat → Nat → Nat)
    (mem : Nat → Nat) (pia base : Nat) :
    (vdg_render_semi_ext f s4 mem .SEMI_GRAPHICS_12 pia base).length = 49152 := by
  unfold vdg_render_semi_ext semi_ext_params
  exact (length_flatMap_range_const _ _ (fun row =>
    length_flatMap_range_const _ _ (fun segrow =>
      length_flatMap_range_const _ _ (fun sl =>
        length_flatMap_range_const _ _ (fun col =>
          length_alpha_semi4_cell_row f s4 pia _ _) 32) (FONT_HEIGHT / 6)) 6) 16).trans
    (by norm_num [FONT_HEIGHT])

theorem length_semi_ext_24 (f s4 : Nat → Nat → Nat)
    (mem : Nat → Nat) (pia base : Nat) :
    (vdg_render_semi_ext f s4 mem .SEMI_GRAPHICS_24 pia base).length = 49152 := by
  unfold vdg_render_semi_ext semi_ext_params
  exact (length_flatMap_range_const _ _ (fun row =>
    length_flatMap_range_const _ _ (fun segrow =>
      length_flatMap_range_const _ _ (fun sl =>
        length_flatMap_range_const _ _ (fun col =>
          length_alpha_semi4_cell_row f s4 pia _ _) 32) (FONT_HEIGHT / 12)) 12) 16).trans
    (by norm_num [FONT_HEIGHT])

theorem length_resl_pixels_of_byte (mode : video_mode_t) (fg b : Nat) :
    (resl_pixels_of_byte mode fg b).length =
      if mode = .GRAPHICS_6R then 8 else 16 := by
  unfold resl_pixels_of_byte
  by_cases hm : mode = .GRAPHICS_6R
  · rw [if_pos hm]
    exact (length_flatMap_range_const _ 1 (fun k => by simp [hm]) 8).trans
      (by norm_num)
  · rw [if_neg hm]
    exact (length_flatMap_range_const _ 2 (fun k => by simp [hm]) 8).trans
      (by norm_num)

theorem length_resl_1R (mem : Nat → Nat) (pia base : Nat) :
    (vdg_render_resl_graph mem .GRAPHICS_1R pia base).length = 49152 := by
  unfold vdg_render_resl_graph resolution_mem resolution_row_rep
  exact (length_flatMap_range_const _ _ (fun r =>
    length_flatMap_range_const _ _ (fun rep =>
      length_flatMap_range_const _ 16 (fun k =>
        (length_resl_pixels_of_byte .GRAPHICS_1R _ _).trans (by decide))
        (if (video_mode_t.GRAPHICS_1R = .GRAPHICS_6R) then 32 else 16)) 3)
      (1024 / if (video_mode_t.GRAPHICS_1R = .GRAPHICS_6R) then 32 else 16)).trans
    (by decide)

theorem length_resl_2R (mem : Nat → Nat) (pia base : Nat) :
    (vdg_render_resl_graph mem .GRAPHICS_2R pia base).length = 49152 := by
  unfold vdg_render_resl_graph resolution_mem resolution_row_rep
  exact (length_flatMap_range_const _ _ (fun r =>
    length_flatMap_range_const _ _ (fun rep =>
      length_flatMap_range_const _ 16 (fun k =>
        (length_resl_pixels_of_byte .GRAPHICS_2R _ _).trans (by decide))
        (if (video_mode_t.GRAPHICS_2R = .GRAPHICS_6R) then 32 else 16)) 2)
      (1536 / if (video_mode_t.GRAPHICS_2R = .GRAPHICS_6R) then 32 else 16)).trans
    (by decide)

theorem length_resl_3R (mem : Nat → Nat) (pia base : Nat) :
    (vdg_render_resl_graph mem .GRAPHICS_3R pia base).length = 49152 := by
  unfold vdg_render_resl_graph resolution_mem resolution_row_rep
  exact (length_flatMap_range_const _ _ (fun r =>
    length_flatMap_range_const _ _ (fun rep =>
      length_flatMap_range_const _ 16 (fun k =>
        (length_resl_pixels_of_byte .GRAPHICS_3R _ _).trans (by decide))
        (if (video_mode_t.GRAPHICS_3R = .GRAPHICS_6R) then 32 else 16)) 1)
      (3072 / if (video_mode_t.GRAPHICS_3R = .GRAPHICS_6R) then 32 else 16)).trans
    (by decide)

theorem length_resl_6R (mem : Nat → Nat) (pia base : Nat) :
    (vdg_render_resl_graph mem .GRAPHICS_6R pia base).length = 49152 := by
  unfold vdg_render_resl_graph resolution_mem resolution_row_rep
  exact (length_flatMap_range_const _ _ (fun r =>
    length_flatMap_range_const _ _ (fun rep =>
      length_flatMap_range_const _ 8 (fun k =>
        (length_resl_pixels_of_byte .GRAPHICS_6R _ _).trans (by decide))
        (if (video_mode_t.GRAPHICS_6R = .GRAPHICS_6R) then 32 else 16)) 1)
      (6144 / if (video_mode_t.GRAPHICS_6R = .GRAPHICS_6R) then 32 else 16)).trans
    (by decide)

theorem length_color_pixels_of_byte (mode : video_mode_t) (cs b : Nat) :
    (color_pixels_of_byte mode cs b).length =
      if mode = .GRAPHICS_1C then 16 else 8 := by
  unfold color_pixels_of_byte
  by_cases hm : mode = .GRAPHICS_1C
  · rw [if_pos hm]
    exact (length_flatMap_range_const _ 4 (fun k => by simp [hm]) 4).trans
      (by norm_num)
  · rw [if_neg hm]
    exact (length_flatMap_range_const _ 2 (fun k => by simp [hm]) 4).trans
      (by norm_num)

theorem length_color_1C (mem : Nat → Nat) (pia base : Nat) :
    (vdg_render_color_graph mem .GRAPHICS_1C pia base).length = 49152 := by
  unfold vdg_render_color_graph resolution_mem resolution_row_rep
  exact (length_flatMap_range_const _ _ (fun r =>
    length_flatMap_range_const _ _ (fun rep =>
      length_flatMap_range_const _ 16 (fun k =>
        (length_color_pixels_of_byte .GRAPHICS_1C _ _).trans (by decide))
        (if (video_mode_t.GRAPHICS_1C = .GRAPHICS_1C) then 16 else 32)) 3)
      (1024 / if (video_mode_t.GRAPHICS_1C = .GRAPHICS_1C) then 16 else 32)).trans
    (by decide)

theorem length_color_2C (mem : Nat → Nat) (pia base : Nat) :
    (vdg_render_color_graph mem .GRAPHICS_2C pia base).length = 49152 := by
  unfold vdg_render_color_graph resolution_mem resolution_row_rep
  exact (length_flatMap_range_const _ _ (fun r =>
    length_flatMap_range_const _ _ (fun rep =>
      length_flatMap_range_const _ 8 (fun k =>
        (length_color_pixels_of_byte .GRAPHICS_2C _ _).trans (by decide))
        (if (video_mode_t.GRAPHICS_2C = .GRAPHICS_1C) then 16 else 32)) 3)
      (2048 / if (video_mode_t.GRAPHICS_2C = .GRAPHICS_1C) then 16 else 32)).trans
    (by decide)

theorem length_color_3C (mem : Nat → Nat) (pia base : Nat) :
    (vdg_render_color_graph mem .GRAPHICS_3C pia base).length = 49152 := by
  unfold vdg_render_color_graph resolution_mem resolution_row_rep
  exact (length_flatMap_range_const _ _ (fun r =>
    length_flatMap_range_const _ _ (fun rep =>
      length_flatMap_range_const _ 8 (fun k =>
        (length_color_pixels_of_byte .GRAPHICS_3C _ _).trans (by decide))
        (if (video_mode_t.GRAPHICS_3C = .GRAPHICS_1C) then 16 else 32)) 2)
      (3072 / if (video_mode_t.GRAPHICS_3C = .GRAPHICS_1C) then 16 else 32)).trans
    (by decide)

theorem length_color_6C (mem : Nat → Nat) (pia base : Nat) :
    (vdg_render_color_graph mem .GRAPHICS_6C pia base).length = 49152 := by
  unfold vdg_render_color_graph resolution_mem resolution_row_rep
  exact (length_flatMap_range_const _ _ (fun r =>
    length_flatMap_range_const _ _ (fun rep =>
      length_flatMap_range_const _ 8 (fun k =>
        (length_color_pixels_of_byte .GRAPHICS_6C _ _).trans (by decide))
        (if (video_mode_t.GRAPHICS_6C = .GRAPHICS_1C) then 16 else 32)) 1)
      (6144 / if (video_mode_t.GRAPHICS_6C = .GRAPHICS_1C) then 16 else 32)).trans
    (by decide)

/-- C7: for every state whose derived mode is renderable (not `DMA`
and not illegal), `vdg_render` produces a frame of exactly
256 × 192 = 49152 bytes, and a second `vdg_render` call with the bus
unchanged produces the byte-identical frame. -/
theorem vdg_render_frame_size_and_idempotent
    (font s4 s6 : Nat → Nat → Nat) (mem : Nat → Nat) (s : vdg_t)
    (hdma : vdg_get_mode s.sam_video_mode s.pia_video_mode ≠ .DMA)
    (hundef : vdg_get_mode s.sam_video_mode s.pia_video_mode ≠ .UNDEFINED) :
    ∃ fb, (vdg_render font s4 s6 mem s).2 = some fb ∧
      fb.length = 49152 ∧
      (vdg_render font s4 s6 mem (vdg_render font s4 s6 mem s).1).2 = some fb := by
  rcases hm : vdg_get_mode s.sam_video_mode s.pia_video_mode
  case DMA => exact absurd hm hdma
  case UNDEFINED => exact absurd hm hundef
  case ALPHA_INTERNAL =>
    refine ⟨vdg_render_alpha_semi4 font s4 mem s.pia_video_mode (s.video_ram_offset <<< 9), ?_, ?_, ?_⟩
    · simp [vdg_render, hm]
    · exact length_vdg_render_alpha_semi4 font s4 mem _ _
    · simp [vdg_render, hm]
  case SEMI_GRAPHICS_4 =>
    refine ⟨vdg_render_alpha_semi4 font s4 mem s.pia_video_mode (s.video_ram_offset <<< 9), ?_, ?_, ?_⟩
    · simp [vdg_render, hm]
    · exact length_vdg_render_alpha_semi4 font s4 mem _ _
    · simp [vdg_render, hm]
  case ALPHA_EXTERNAL =>
    refine ⟨vdg_render_semi6 s6 mem s.pia_video_mode (s.video_ram_offset <<< 9), ?_, ?_, ?_⟩
    · simp [vdg_render, hm]
    · exact length_vdg_render_semi6 s6 mem _ _
    · simp [vdg_render, hm]
  case SEMI_GRAPHICS_6 =>
    refine ⟨vdg_render_semi6 s6 mem s.pia_video_mode (s.video_ram_offset <<< 9), ?_, ?_, ?_⟩
    · simp [vdg_render, hm]
    · exact length_vdg_render_semi6 s6 mem _ _
    · simp [vdg_render, hm]
  case SEMI_GRAPHICS_8 =>
    refine ⟨vdg_render_semi_ext font s4 mem .SEMI_GRAPHICS_8 s.pia_video_mode (s.video_ram_offset <<< 9), ?_, ?_, ?_⟩
    · simp [vdg_render, hm]
    · exact length_semi_ext_8 font s4 mem _ _
    · simp [vdg_render, hm]
  case SEMI_GRAPHICS_12 =>
    refine ⟨vdg_render_semi_ext font s4 mem .SEMI_GRAPHICS_12 s.pia_video_mode (s.video_ram_offset <<< 9), ?_, ?_, ?_⟩
    · simp [vdg_render, hm]
    · exact length_semi_ext_12 font s4 mem _ _
    · simp [vdg_render, hm]
  case SEMI_GRAPHICS_24 =>
    refine ⟨vdg_render_semi_ext font s4 mem .SEMI_GRAPHICS_24 s.pia_video_mode (s.video_ram_offset <<< 9), ?_, ?_, ?_⟩
    · simp [vdg_render, hm]
    · exact length_semi_ext_24 font s4 mem _ _
    · simp [vdg_render, hm]
  case GRAPHICS_1C =>
    refine ⟨vdg_render_color_graph mem .GRAPHICS_1C s.pia_video_mode (s.video_ram_offset <<< 9), ?_, ?_, ?_⟩
    · simp [vdg_render, hm]
    · exact length_color_1C mem _ _
    · simp [vdg_render, hm]
  case GRAPHICS_2C =>
    refine ⟨vdg_render_color_graph mem .GRAPHICS_2C s.pia_video_mode (s.video_ram_offset <<< 9), ?_, ?_, ?_⟩
    · simp [vdg_render, hm]
    · exact length_color_2C mem _ _
    · simp [vdg_render, hm]
  case GRAPHICS_3C =>
    refine ⟨vdg_render_color_graph mem .GRAPHICS_3C s.pia_video_mode (s.video_ram_offset <<< 9), ?_, ?_, ?_⟩
    · simp [vdg_render, hm]
    · exact length_color_3C mem _ _
    · simp [vdg_render, hm]
  case GRAPHICS_6C =>
    refine ⟨vdg_render_color_graph mem .GRAPHICS_6C s.pia_video_mode (s.video_ram_offset <<< 9), ?_, ?_, ?_⟩
    · simp [vdg_render, hm]
    · exact length_color_6C mem _ _
    · simp [vdg_render, hm]
  case GRAPHICS_1R =>
    refine ⟨vdg_render_resl_graph mem .GRAPHICS_1R s.pia_video_mode (s.video_ram_offset <<< 9), ?_, ?_, ?_⟩
    · simp [vdg_render, hm]
    · exact length_resl_1R mem _ _
    · simp [vdg_render, hm]
  case GRAPHICS_2R =>
    refine ⟨vdg_render_resl_graph mem .GRAPHICS_2R s.pia_video_mode (s.video_ram_offset <<< 9), ?_, ?_, ?_⟩
    · simp [vdg_render, hm]
    · exact length_resl_2R mem _ _
    · simp [vdg_render, hm]
  case GRAPHICS_3R =>
    refine ⟨vdg_render_resl_graph mem .GRAPHICS_3R s.pia_video_mode (s.video_ram_offset <<< 9), ?_, ?_, ?_⟩
    · simp [vdg_render, hm]
    · exact length_resl_3R mem _ _
    · simp [vdg_render, hm]
  case GRAPHICS_6R =>
    refine ⟨vdg_render_resl_graph mem .GRAPHICS_6R s.pia_video_mode (s.video_ram_offset <<< 9), ?_, ?_, ?_⟩
    · simp [vdg_render, hm]
    · exact length_resl_6R mem _ _
    · simp [vdg_render, hm]

theorem vdg_render_frame_size_and_idempotent_witness :
    (vdg_get_mode (⟨2, 0, 0, .UNDEFINED, .UNDEFINED⟩ : vdg_t).sam_video_mode
        (⟨2, 0, 0, .UNDEFINED, .UNDEFINED⟩ : vdg_t).pia_video_mode ≠ .DMA) ∧
    (vdg_get_mode (⟨2, 0, 0, .UNDEFINED, .UNDEFINED⟩ : vdg_t).sam_video_mode
        (⟨2, 0, 0, .UNDEFINED, .UNDEFINED⟩ : vdg_t).pia_video_mode ≠ .UNDEFINED) ∧
    (∃ fb, (vdg_render (fun _ _ => 0) (fun _ _ => 0) (fun _ _ => 0) (fun _ => 0)
          ⟨2, 0, 0, .UNDEFINED, .UNDEFINED⟩).2 = some fb ∧
      fb.length = 49152 ∧
      (vdg_render (fun _ _ => 0) (fun _ _ => 0) (fun _ _ => 0) (fun _ => 0)
          ((vdg_render (fun _ _ => 0) (fun _ _ => 0) (fun _ _ => 0) (fun _ => 0)
            ⟨2, 0, 0, .UNDEFINED, .UNDEFINED⟩).1)).2 = some fb) :=
  ⟨by decide, by decide,
   vdg_render_frame_size_and_idempotent (fun _ _ => 0) (fun _ _ => 0)
     (fun _ _ => 0) (fun _ => 0) ⟨2, 0, 0, .UNDEFINED, .UNDEFINED⟩
     (by decide) (by decide)⟩

theorem disk_busy_or_drq_invariant_witness :
    ((disk_run ⟨.FILE_VDK, fun _ => 0⟩ [.op_cmd 0x88 .MEM_WRITE]).state ≠
        .DISK_IDLE) ∧
    ((disk_run ⟨.FILE_VDK, fun _ => 0⟩
        [.op_cmd 0x88 .MEM_WRITE]).regs.disk_status.testBit 0 = true ∨
      (disk_run ⟨.FILE_VDK, fun _ => 0⟩
        [.op_cmd 0x88 .MEM_WRITE]).regs.disk_status.testBit 1 = true) :=
  ⟨by decide,
   disk_busy_or_drq_invariant ⟨.FILE_VDK, fun _ => 0⟩
     [.op_cmd 0x88 .MEM_WRITE] (by decide)⟩

/-! ## C3: runs of the tape FSM over whole CAS streams -/

/-- The claim's header block: type byte 0x00, length byte, `len`
payload bytes (filename, type, ascii and gap fields), checksum. -/
def cas_header_block (hp : List Nat) (cksum : Nat) : List Nat :=
  0x00 :: hp.length :: (hp ++ [cksum])

/-- The claim's data block, with its leader run and sync byte: type
byte 0x01, length byte, `len` payload bytes, checksum. -/
def cas_data_block (ldr : Nat) (dp : List Nat) (cksum : Nat) : List Nat :=
  List.replicate ldr 0x55 ++ (0x3c :: 0x01 :: dp.length :: (dp ++ [cksum]))

/-- The claim's EOF block, with its leader run and sync byte: type
byte 0xFF, zero length, checksum. -/
def cas_eof_block (ldr cksum : Nat) : List Nat :=
  List.replicate ldr 0x55 ++ [0x3c, 0xff, 0x00, cksum]

/-- A full captured CAS byte stream in the shape claim C3 quantifies
over: a leader of `n` 0x55 bytes, a sync 0x3C, one header block, any
list of data blocks, and an EOF block. -/
def cas_stream (n : Nat) (hp : List Nat) (hck : Nat)
    (dbs : List (Nat × List Nat × Nat)) (eldr eck : Nat) : List Nat :=
  List.replicate n 0x55 ++ [0x3c] ++ cas_header_block hp hck ++
    (dbs.flatMap fun d => cas_data_block d.1 d.2.1 d.2.2) ++
    cas_eof_block eldr eck

/-- Writing a byte list into a buffer function starting at index
`i0`, one cell per byte, as the capture loop does. -/
def store_bytes (f : Nat → Nat) (i0 : Nat) : List Nat → (Nat → Nat)
  | [] => f
  | b :: bs => store_bytes (fun n => if n = i0 then b else f n) (i0 + 1) bs

theorem store_bytes_append (bs1 bs2 : List Nat) : ∀ (f : Nat → Nat) (i0 : Nat),
    store_bytes f i0 (bs1 ++ bs2) =
      store_bytes (store_bytes f i0 bs1) (i0 + bs1.length) bs2 := by
  induction bs1 with
  | nil => intro f i0; simp [store_bytes]
  | cons b bs ih =>
    intro f i0
    simp only [List.cons_append, store_bytes, List.append_eq, ih,
      List.length_cons]
    have he : i0 + 1 + bs.length = i0 + (bs.length + 1) := by omega
    rw [he]

theorem store_bytes_lt (bs : List Nat) : ∀ (f : Nat → Nat) (i0 n : Nat),
    n < i0 → store_bytes f i0 bs n = f n := by
  induction bs with
  | nil => intro f i0 n _; rfl
  | cons b bs ih =>
    intro f i0 n hn
    simp only [store_bytes]
    rw [ih _ _ _ (by omega)]
    rw [if_neg (by omega)]

theorem store_bytes_read (bs : List Nat) : ∀ (f : Nat → Nat) (i0 k : Nat),
    k < bs.length → store_bytes f i0 bs (i0 + k) = bs.getD k 0 := by
  induction bs with
  | nil => intro f i0 k hk; simp at hk
  | cons b bs ih =>
    intro f i0 k hk
    cases k with
    | zero =>
      simp only [store_bytes, Nat.add_zero, List.getD]
      rw [store_bytes_lt _ _ _ _ (by omega)]
      simp
    | succ m =>
      have := ih (fun n => if n = i0 then b else f n) (i0 + 1) m (by simpa using hk)
      simp only [store_bytes, List.getD_cons_succ]
      rw [show i0 + (m + 1) = (i0 + 1) + m by omega, this]

theorem tape_run_bytes_append (xs ys : List Nat) : ∀ s : tape_t,
    tape_run_bytes s (xs ++ ys) =
      ((tape_run_bytes (tape_run_bytes s xs).1 ys).1,
       (tape_run_bytes s xs).2 ++ (tape_run_bytes (tape_run_bytes s xs).1 ys).2) := by
  induction xs with
  | nil => intro s; simp [tape_run_bytes]
  | cons b bs ih =>
    intro s
    simp only [List.cons_append, tape_run_bytes, List.append_eq]
    rw [ih]
    simp [List.append_assoc]

/-- A "clean" run of the byte-level FSM: `bs` is consumed with no
flush; the resulting stream state and the three private block
counters are as given, the index advanced past `bs` and the bytes
stored in order. -/
def tape_phase (s : tape_t) (bs : List Nat) (st : cas_tape_state_t)
    (hc dc ec : Int) : Prop :=
  (tape_run_bytes s bs).2 = [] ∧
  (tape_run_bytes s bs).1.tape_state = st ∧
  (tape_run_bytes s bs).1.hdr_byte_count = hc ∧
  (tape_run_bytes s bs).1.data_byte_count = dc ∧
  (tape_run_bytes s bs).1.eof_byte_count = ec ∧
  (tape_run_bytes s bs).1.i = s.i + bs.length ∧
  (tape_run_bytes s bs).1.buf = store_bytes s.buf s.i bs

theorem tape_phase_append {s : tape_t} {bs1 bs2 : List Nat}
    {st1 st2 : cas_tape_state_t} {h1 d1 e1 h2 d2 e2 : Int}
    (p1 : tape_phase s bs1 st1 h1 d1 e1)
    (p2 : tape_phase (tape_run_bytes s bs1).1 bs2 st2 h2 d2 e2) :
    tape_phase s (bs1 ++ bs2) st2 h2 d2 e2 := by
  obtain ⟨q1, q2, q3, q4, q5, q6, q7⟩ := p1
  obtain ⟨r1, r2, r3, r4, r5, r6, r7⟩ := p2
  unfold tape_phase
  rw [tape_run_bytes_append]
  refine ⟨by simp [q1, r1], r2, r3, r4, r5, ?_, ?_⟩
  · simp only [r6, q6, List.length_append]; omega
  · rw [r7, q7, q6, store_bytes_append]

theorem tape_phase_idle_55 (s : tape_t) (hs : s.tape_state = .CAS_STREAM_IDLE)
    (hi : s.i + 1 ≤ 65535) :
    tape_phase s [0x55] .CAS_STREAM_LEADER s.hdr_byte_count
      s.data_byte_count s.eof_byte_count := by
  unfold tape_phase
  simp [tape_run_bytes, tape_capture_byte, cas_stream_header, cas_stream_data, cas_stream_eof, hs, CAS_STREAM_SIZE, show ¬(s.i + 1 = 65536) from by omega, store_bytes]

theorem tape_phase_leader_55 (s : tape_t)
    (hs : s.tape_state = .CAS_STREAM_LEADER) (hi : s.i + 1 ≤ 65535) :
    tape_phase s [0x55] .CAS_STREAM_LEADER s.hdr_byte_count
      s.data_byte_count s.eof_byte_count := by
  unfold tape_phase
  simp [tape_run_bytes, tape_capture_byte, cas_stream_header, cas_stream_data, cas_stream_eof, hs, CAS_STREAM_SIZE, show ¬(s.i + 1 = 65536) from by omega, store_bytes]

theorem tape_phase_leader_3c (s : tape_t)
    (hs : s.tape_state = .CAS_STREAM_LEADER) (hi : s.i + 1 ≤ 65535) :
    tape_phase s [0x3c] .CAS_STREAM_SYNC s.hdr_byte_count
      s.data_byte_count s.eof_byte_count := by
  unfold tape_phase
  simp [tape_run_bytes, tape_capture_byte, cas_stream_header, cas_stream_data, cas_stream_eof, hs, CAS_STREAM_SIZE, show ¬(s.i + 1 = 65536) from by omega, store_bytes]

theorem tape_phase_sync_00 (s : tape_t)
    (hs : s.tape_state = .CAS_STREAM_SYNC) (hi : s.i + 1 ≤ 65535) :
    tape_phase s [0x00] .CAS_STREAM_HEADER s.hdr_byte_count
      s.data_byte_count s.eof_byte_count := by
  unfold tape_phase
  simp [tape_run_bytes, tape_capture_byte, cas_stream_header, cas_stream_data, cas_stream_eof, hs, CAS_STREAM_SIZE, show ¬(s.i + 1 = 65536) from by omega, store_bytes]

theorem tape_phase_sync_01 (s : tape_t)
    (hs : s.tape_state = .CAS_STREAM_SYNC) (hi : s.i + 1 ≤ 65535) :
    tape_phase s [0x01] .CAS_STREAM_DATA s.hdr_byte_count
      s.data_byte_count s.eof_byte_count := by
  unfold tape_phase
  simp [tape_run_bytes, tape_capture_byte, cas_stream_header, cas_stream_data, cas_stream_eof, hs, CAS_STREAM_SIZE, show ¬(s.i + 1 = 65536) from by omega, store_bytes]

theorem tape_phase_sync_ff (s : tape_t)
    (hs : s.tape_state = .CAS_STREAM_SYNC) (hi : s.i + 1 ≤ 65535) :
    tape_phase s [0xff] .CAS_STREAM_EOF s.hdr_byte_count
      s.data_byte_count s.eof_byte_count := by
  unfold tape_phase
  simp [tape_run_bytes, tape_capture_byte, cas_stream_header, cas_stream_data, cas_stream_eof, hs, CAS_STREAM_SIZE, show ¬(s.i + 1 = 65536) from by omega, store_bytes]

theorem tape_phase_header_len (s : tape_t) (b : Nat)
    (hs : s.tape_state = .CAS_STREAM_HEADER) (hc : s.hdr_byte_count = -1)
    (hi : s.i + 1 ≤ 65535) :
    tape_phase s [b] .CAS_STREAM_HEADER (b : Int)
      s.data_byte_count s.eof_byte_count := by
  unfold tape_phase
  simp [tape_run_bytes, tape_capture_byte, cas_stream_header, cas_stream_data, cas_stream_eof, hs, hc, CAS_STREAM_SIZE,
    show ¬(s.i + 1 = 65536) from by omega, store_bytes]

theorem tape_phase_header_count (s : tape_t) (b : Nat)
    (hs : s.tape_state = .CAS_STREAM_HEADER) (hc : 1 ≤ s.hdr_byte_count)
    (hi : s.i + 1 ≤ 65535) :
    tape_phase s [b] .CAS_STREAM_HEADER (s.hdr_byte_count - 1)
      s.data_byte_count s.eof_byte_count := by
  unfold tape_phase
  by_cases halnum : 0 ≤ s.hdr_char_index ∧ s.hdr_char_index ≤ 7 ∧
      c_isalnum b = true <;>
    simp [tape_run_bytes, tape_capture_byte, cas_stream_header, cas_stream_data, cas_stream_eof, hs, halnum, CAS_STREAM_SIZE,
      show ¬(s.hdr_byte_count < 0) from by omega,
      show ¬(s.hdr_byte_count - 1 < 0) from by omega,
      show ¬(s.i + 1 = 65536) from by omega, store_bytes]

theorem tape_phase_header_cksum (s : tape_t) (b : Nat)
    (hs : s.tape_state = .CAS_STREAM_HEADER) (hc : s.hdr_byte_count = 0)
    (hi : s.i + 1 ≤ 65535) :
    tape_phase s [b] .CAS_STREAM_LEADER (-1)
      s.data_byte_count s.eof_byte_count := by
  unfold tape_phase
  simp [tape_run_bytes, tape_capture_byte, cas_stream_header, cas_stream_data, cas_stream_eof, hs, hc, CAS_STREAM_SIZE,
    show ¬(s.i + 1 = 65536) from by omega, store_bytes]

theorem tape_phase_data_len (s : tape_t) (b : Nat)
    (hs : s.tape_state = .CAS_STREAM_DATA) (hc : s.data_byte_count = -1)
    (hi : s.i + 1 ≤ 65535) :
    tape_phase s [b] .CAS_STREAM_DATA s.hdr_byte_count (b : Int)
      s.eof_byte_count := by
  unfold tape_phase
  simp [tape_run_bytes, tape_capture_byte, cas_stream_header, cas_stream_data, cas_stream_eof, hs, hc, CAS_STREAM_SIZE,
    show ¬(s.i + 1 = 65536) from by omega, store_bytes]

theorem tape_phase_data_count (s : tape_t) (b : Nat)
    (hs : s.tape_state = .CAS_STREAM_DATA) (hc : 1 ≤ s.data_byte_count)
    (hi : s.i + 1 ≤ 65535) :
    tape_phase s [b] .CAS_STREAM_DATA s.hdr_byte_count
      (s.data_byte_count - 1) s.eof_byte_count := by
  unfold tape_phase
  simp [tape_run_bytes, tape_capture_byte, cas_stream_header, cas_stream_data, cas_stream_eof, hs, CAS_STREAM_SIZE,
    show ¬(s.data_byte_count < 0) from by omega,
    show ¬(s.data_byte_count - 1 < 0) from by omega,
    show ¬(s.i + 1 = 65536) from by omega, store_bytes]

theorem tape_phase_data_cksum (s : tape_t) (b : Nat)
    (hs : s.tape_state = .CAS_STREAM_DATA) (hc : s.data_byte_count = 0)
    (hi : s.i + 1 ≤ 65535) :
    tape_phase s [b] .CAS_STREAM_LEADER s.hdr_byte_count (-1)
      s.eof_byte_count := by
  unfold tape_phase
  simp [tape_run_bytes, tape_capture_byte, cas_stream_header, cas_stream_data, cas_stream_eof, hs, hc, CAS_STREAM_SIZE,
    show ¬(s.i + 1 = 65536) from by omega, store_bytes]

theorem tape_phase_eof_len (s : tape_t) (b : Nat)
    (hs : s.tape_state = .CAS_STREAM_EOF) (hc : s.eof_byte_count = -1)
    (hi : s.i + 1 ≤ 65535) :
    tape_phase s [b] .CAS_STREAM_EOF s.hdr_byte_count
      s.data_byte_count (b : Int) := by
  unfold tape_phase
  simp [tape_run_bytes, tape_capture_byte, cas_stream_header, cas_stream_data, cas_stream_eof, hs, hc, CAS_STREAM_SIZE,
    show ¬(s.i + 1 = 65536) from by omega, store_bytes]

theorem tape_phase_eof_cksum (s : tape_t) (b : Nat)
    (hs : s.tape_state = .CAS_STREAM_EOF) (hc : s.eof_byte_count = 0)
    (hi : s.i + 1 ≤ 65535) :
    tape_phase s [b] .CAS_STREAM_WRITE s.hdr_byte_count
      s.data_byte_count (-1) := by
  unfold tape_phase
  simp [tape_run_bytes, tape_capture_byte, cas_stream_header, cas_stream_data, cas_stream_eof, hs, hc, CAS_STREAM_SIZE,
    show ¬(s.i + 1 = 65536) from by omega, store_bytes]

theorem tape_phase_leader_run (k : Nat) : ∀ s : tape_t,
    s.tape_state = .CAS_STREAM_LEADER → s.i + k ≤ 65535 →
    tape_phase s (List.replicate k 0x55) .CAS_STREAM_LEADER
      s.hdr_byte_count s.data_byte_count s.eof_byte_count := by
  induction k with
  | zero =>
    intro s hs _
    exact ⟨rfl, hs, rfl, rfl, rfl, by simp [tape_run_bytes], rfl⟩
  | succ m ih =>
    intro s hs hi
    rw [List.replicate_succ]
    have step := tape_phase_leader_55 s hs (by omega)
    obtain ⟨e1, e2, e3, e4, e5, e6, e7⟩ := step
    have rest := ih (tape_run_bytes s [0x55]).1 e2 (by rw [e6]; simp; omega)
    have comp := tape_phase_append
      (tape_phase_leader_55 s hs (by omega)) rest
    rw [e3, e4, e5] at comp
    simpa using comp

theorem tape_phase_header_payload (bs : List Nat) : ∀ s : tape_t,
    s.tape_state = .CAS_STREAM_HEADER →
    s.hdr_byte_count = (bs.length : Int) → s.i + bs.length ≤ 65535 →
    tape_phase s bs .CAS_STREAM_HEADER 0
      s.data_byte_count s.eof_byte_count := by
  induction bs with
  | nil =>
    intro s hs hc _
    exact ⟨rfl, hs, by simpa using hc, rfl, rfl, by simp [tape_run_bytes], rfl⟩
  | cons b bs ih =>
    intro s hs hc hi
    have h1 : 1 ≤ s.hdr_byte_count := by
      rw [hc]; simp only [List.length_cons]; push_cast; omega
    have step := tape_phase_header_count s b hs h1 (by simp at hi; omega)
    obtain ⟨e1, e2, e3, e4, e5, e6, e7⟩ := step
    have hc2 : (tape_run_bytes s [b]).1.hdr_byte_count = (bs.length : Int) := by
      rw [e3, hc]; simp only [List.length_cons]; push_cast; omega
    have hi2 : (tape_run_bytes s [b]).1.i + bs.length ≤ 65535 := by
      rw [e6]; simp at hi ⊢; omega
    have rest := ih (tape_run_bytes s [b]).1 e2 hc2 hi2
    have comp := tape_phase_append
      (tape_phase_header_count s b hs h1 (by simp at hi; omega)) rest
    rw [e4, e5] at comp
    simpa using comp

theorem tape_phase_data_payload (bs : List Nat) : ∀ s : tape_t,
    s.tape_state = .CAS_STREAM_DATA →
    s.data_byte_count = (bs.length : Int) → s.i + bs.length ≤ 65535 →
    tape_phase s bs .CAS_STREAM_DATA s.hdr_byte_count 0
      s.eof_byte_count := by
  induction bs with
  | nil =>
    intro s hs hc _
    exact ⟨rfl, hs, rfl, by simpa using hc, rfl, by simp [tape_run_bytes], rfl⟩
  | cons b bs ih =>
    intro s hs hc hi
    have h1 : 1 ≤ s.data_byte_count := by
      rw [hc]; simp only [List.length_cons]; push_cast; omega
    have step := tape_phase_data_count s b hs h1 (by simp at hi; omega)
    obtain ⟨e1, e2, e3, e4, e5, e6, e7⟩ := step
    have hc2 : (tape_run_bytes s [b]).1.data_byte_count = (bs.length : Int) := by
      rw [e4, hc]; simp only [List.length_cons]; push_cast; omega
    have hi2 : (tape_run_bytes s [b]).1.i + bs.length ≤ 65535 := by
      rw [e6]; simp at hi ⊢; omega
    have rest := ih (tape_run_bytes s [b]).1 e2 hc2 hi2
    have comp := tape_phase_append
      (tape_phase_data_count s b hs h1 (by simp at hi; omega)) rest
    rw [e3, e5] at comp
    simpa using comp

theorem tape_phase_header_block (hp : List Nat) (hck : Nat) (s : tape_t)
    (hs : s.tape_state = .CAS_STREAM_SYNC) (hc : s.hdr_byte_count = -1)
    (hi : s.i + (hp.length + 3) ≤ 65535) :
    tape_phase s (cas_header_block hp hck) .CAS_STREAM_LEADER (-1)
      s.data_byte_count s.eof_byte_count := by
  have p1 := tape_phase_sync_00 s hs (by omega)
  obtain ⟨a1, a2, a3, a4, a5, a6, a7⟩ := id p1
  have p2 := tape_phase_header_len (tape_run_bytes s [0x00]).1 hp.length a2
    (by rw [a3, hc]) (by rw [a6]; simp; omega)
  obtain ⟨b1, b2, b3, b4, b5, b6, b7⟩ := id p2
  have p3 := tape_phase_header_payload hp
    (tape_run_bytes (tape_run_bytes s [0x00]).1 [hp.length]).1 b2 b3
    (by rw [b6, a6]; simp; omega)
  obtain ⟨c1, c2, c3, c4, c5, c6, c7⟩ := id p3
  have p4 := tape_phase_header_cksum
    (tape_run_bytes (tape_run_bytes (tape_run_bytes s [0x00]).1
      [hp.length]).1 hp).1 hck c2 c3
    (by rw [c6, b6, a6]; simp; omega)
  have q1 := tape_phase_append p3 p4
  rw [c4, c5] at q1
  have q2 := tape_phase_append p2 q1
  rw [b4, b5] at q2
  have q3 := tape_phase_append p1 q2
  rw [a4, a5] at q3
  simpa [cas_header_block] using q3

theorem tape_phase_data_block (ldr : Nat) (dp : List Nat) (ck : Nat)
    (s : tape_t) (hs : s.tape_state = .CAS_STREAM_LEADER)
    (hc : s.data_byte_count = -1)
    (hi : s.i + (ldr + (dp.length + 4)) ≤ 65535) :
    tape_phase s (cas_data_block ldr dp ck) .CAS_STREAM_LEADER
      s.hdr_byte_count (-1) s.eof_byte_count := by
  have p0 := tape_phase_leader_run ldr s hs (by omega)
  obtain ⟨z1, z2, z3, z4, z5, z6, z7⟩ := id p0
  have p1 := tape_phase_leader_3c (tape_run_bytes s
      (List.replicate ldr 0x55)).1 z2 (by rw [z6]; simp; omega)
  obtain ⟨a1, a2, a3, a4, a5, a6, a7⟩ := id p1
  have p2 := tape_phase_sync_01 (tape_run_bytes (tape_run_bytes s
      (List.replicate ldr 0x55)).1 [0x3c]).1 a2
    (by rw [a6, z6]; simp; omega)
  obtain ⟨b1, b2, b3, b4, b5, b6, b7⟩ := id p2
  have p3 := tape_phase_data_len _ dp.length b2 (by rw [b4, a4, z4, hc])
    (by rw [b6, a6, z6]; simp; omega)
  obtain ⟨c1, c2, c3, c4, c5, c6, c7⟩ := id p3
  have p4 := tape_phase_data_payload dp _ c2 c4
    (by rw [c6, b6, a6, z6]; simp; omega)
  obtain ⟨d1, d2, d3, d4, d5, d6, d7⟩ := id p4
  have p5 := tape_phase_data_cksum _ ck d2 d4
    (by rw [d6, c6, b6, a6, z6]; simp; omega)
  have q1 := tape_phase_append p4 p5
  rw [d3, d5] at q1
  have q2 := tape_phase_append p3 q1
  rw [c3, c5] at q2
  have q3 := tape_phase_append p2 q2
  rw [b3, b5] at q3
  have q4 := tape_phase_append p1 q3
  rw [a3, a5] at q4
  have q5 := tape_phase_append p0 q4
  rw [z3, z5] at q5
  simpa [cas_data_block] using q5

theorem tape_phase_data_blocks (dbs : List (Nat × List Nat × Nat)) :
    ∀ s : tape_t, s.tape_state = .CAS_STREAM_LEADER →
    s.data_byte_count = -1 →
    s.i + (dbs.flatMap fun d => cas_data_block d.1 d.2.1 d.2.2).length ≤ 65535 →
    tape_phase s (dbs.flatMap fun d => cas_data_block d.1 d.2.1 d.2.2)
      .CAS_STREAM_LEADER s.hdr_byte_count (-1) s.eof_byte_count := by
  induction dbs with
  | nil =>
    intro s hs hc _
    exact ⟨rfl, hs, rfl, by simpa using hc, rfl, by simp [tape_run_bytes], rfl⟩
  | cons d dbs ih =>
    intro s hs hc hi
    have hlen : (cas_data_block d.1 d.2.1 d.2.2).length =
        d.1 + (d.2.1.length + 4) := by
      simp [cas_data_block]
    have p1 := tape_phase_data_block d.1 d.2.1 d.2.2 s hs hc
      (by simp only [List.flatMap_cons, List.length_append, hlen] at hi; omega)
    obtain ⟨a1, a2, a3, a4, a5, a6, a7⟩ := id p1
    have p2 := ih _ a2 a4
      (by rw [a6, hlen]
          simp only [List.flatMap_cons, List.length_append, hlen] at hi
          omega)
    obtain ⟨b1, b2, b3, b4, b5, b6, b7⟩ := id p2
    have q := tape_phase_append p1 p2
    rw [a3, a5] at q
    simpa [List.flatMap_cons] using q

theorem tape_phase_eof_block (ldr ck : Nat) (s : tape_t)
    (hs : s.tape_state = .CAS_STREAM_LEADER)
    (hc : s.eof_byte_count = -1)
    (hi : s.i + (ldr + 4) ≤ 65535) :
    tape_phase s (cas_eof_block ldr ck) .CAS_STREAM_WRITE
      s.hdr_byte_count s.data_byte_count (-1) := by
  have p0 := tape_phase_leader_run ldr s hs (by omega)
  obtain ⟨z1, z2, z3, z4, z5, z6, z7⟩ := id p0
  have p1 := tape_phase_leader_3c (tape_run_bytes s
      (List.replicate ldr 0x55)).1 z2 (by rw [z6]; simp; omega)
  obtain ⟨a1, a2, a3, a4, a5, a6, a7⟩ := id p1
  have p2 := tape_phase_sync_ff (tape_run_bytes (tape_run_bytes s
      (List.replicate ldr 0x55)).1 [0x3c]).1 a2
    (by rw [a6, z6]; simp; omega)
  obtain ⟨b1, b2, b3, b4, b5, b6, b7⟩ := id p2
  have p3 := tape_phase_eof_len _ 0x00 b2 (by rw [b5, a5, z5, hc])
    (by rw [b6, a6, z6]; simp; omega)
  obtain ⟨c1, c2, c3, c4, c5, c6, c7⟩ := id p3
  have p4 := tape_phase_eof_cksum _ ck c2 (by rw [c5]; simp)
    (by rw [c6, b6, a6, z6]; simp; omega)
  have q1 := tape_phase_append p3 p4
  rw [c3, c4] at q1
  have q2 := tape_phase_append p2 q1
  rw [b3, b4] at q2
  have q3 := tape_phase_append p1 q2
  rw [a3, a4] at q3
  have q4 := tape_phase_append p0 q3
  rw [z3, z4] at q4
  simpa [cas_eof_block] using q4

theorem tape_phase_cas_stream (n : Nat) (hp : List Nat) (hck : Nat)
    (dbs : List (Nat × List Nat × Nat)) (eldr eck : Nat) (s : tape_t)
    (hn : 1 ≤ n) (hs : s.tape_state = .CAS_STREAM_IDLE)
    (hh : s.hdr_byte_count = -1) (hd : s.data_byte_count = -1)
    (he : s.eof_byte_count = -1)
    (hi : s.i + (cas_stream n hp hck dbs eldr eck).length ≤ 65535) :
    tape_phase s (cas_stream n hp hck dbs eldr eck) .CAS_STREAM_WRITE
      (-1) (-1) (-1) := by
  have hrep : List.replicate n 0x55 = 0x55 :: List.replicate (n - 1) 0x55 := by
    cases n with
    | zero => omega
    | succ m => simp [List.replicate_succ]
  have hlen : (cas_stream n hp hck dbs eldr eck).length =
      n + 1 + (hp.length + 3) +
        (dbs.flatMap fun d => cas_data_block d.1 d.2.1 d.2.2).length +
        (eldr + 4) := by
    simp [cas_stream, cas_header_block, cas_eof_block]
    omega
  rw [hlen] at hi
  have p0 := tape_phase_idle_55 s hs (by omega)
  obtain ⟨z1, z2, z3, z4, z5, z6, z7⟩ := id p0
  have p1 := tape_phase_leader_run (n - 1) (tape_run_bytes s [0x55]).1 z2
    (by rw [z6]; simp; omega)
  obtain ⟨a1, a2, a3, a4, a5, a6, a7⟩ := id p1
  have p2 := tape_phase_leader_3c _ a2
    (by rw [a6, z6]; simp; omega)
  obtain ⟨b1, b2, b3, b4, b5, b6, b7⟩ := id p2
  have p3 := tape_phase_header_block hp hck _ b2 (by rw [b3, a3, z3, hh])
    (by rw [b6, a6, z6]; simp; omega)
  obtain ⟨c1, c2, c3, c4, c5, c6, c7⟩ := id p3
  have hhb : (cas_header_block hp hck).length = hp.length + 3 := by
    simp [cas_header_block]
  have p4 := tape_phase_data_blocks dbs _ c2 (by rw [c4, b4, a4, z4, hd])
    (by rw [c6, b6, a6, z6, hhb]
        simp only [List.length_singleton, List.length_replicate]
        omega)
  obtain ⟨d1, d2, d3, d4, d5, d6, d7⟩ := id p4
  have p5 := tape_phase_eof_block eldr eck _ d2
    (by rw [d5, c5, b5, a5, z5, he])
    (by rw [d6, c6, b6, a6, z6, hhb]
        simp only [List.length_singleton, List.length_replicate]
        omega)
  have q1 := tape_phase_append p4 p5
  rw [d3, d4] at q1
  have q2 := tape_phase_append p3 q1
  rw [c3] at q2
  have q3 := tape_phase_append p2 q2
  have q4 := tape_phase_append p1 q3
  have q5 := tape_phase_append p0 q4
  have hassoc : [(0x55 : Nat)] ++ (List.replicate (n - 1) 0x55 ++
      ([0x3c] ++ (cas_header_block hp hck ++
        ((dbs.flatMap fun d => cas_data_block d.1 d.2.1 d.2.2) ++
          cas_eof_block eldr eck)))) = cas_stream n hp hck dbs eldr eck := by
    rw [cas_stream, hrep]
    simp [List.append_assoc]
  rwa [hassoc] at q5

/-- The byte that follows a completed EOF block: the FSM sits in
`CAS_STREAM_WRITE`, so this capture stores the byte, flushes the
first `i` buffer bytes as the output file and resets to idle. -/
theorem tape_write_flush (s : tape_t) (b : Nat)
    (hs : s.tape_state = .CAS_STREAM_WRITE) (hi : s.i + 1 ≤ 65535) :
    tape_run_bytes s [b] =
      ({ s with tape_state := .CAS_STREAM_IDLE, i := 0, buf := fun _ => 0 },
       [(List.range (s.i + 1)).map (fun n => if n = s.i then b else s.buf n)]) := by
  unfold tape_run_bytes tape_capture_byte
  simp [tape_run_bytes, hs, CAS_STREAM_SIZE,
    show ¬(s.i + 1 = 65536) from by omega]

theorem map_range_store (bs : List Nat) (f : Nat → Nat) :
    (List.range bs.length).map (fun n => store_bytes f 0 bs n) = bs := by
  apply List.ext_getElem
  · simp
  · intro i h1 h2
    simp only [List.getElem_map, List.getElem_range]
    have hr := store_bytes_read bs f 0 i (by simpa using h2)
    rw [Nat.zero_add] at hr
    rw [hr]
    simp [List.getD_eq_getElem?_getD, List.getElem?_eq_getElem,
      show i < bs.length from by simpa using h2]

theorem emission_eq (S : List Nat) (b : Nat) :
    (List.range (S.length + 1)).map
      (fun k => if k = S.length then b else store_bytes (fun _ => 0) 0 S k) =
    S ++ [b] := by
  rw [List.range_succ, List.map_append]
  congr 1
  · have h1 : (List.range S.length).map
        (fun k => if k = S.length then b else store_bytes (fun _ => 0) 0 S k) =
        (List.range S.length).map (fun n => store_bytes (fun _ => 0) 0 S n) := by
      apply List.map_congr_left
      intro a ha
      exact if_neg (by have := List.mem_range.mp ha; omega)
    rw [h1, map_range_store]
  · simp

/-- C3 (amended): after consuming a complete captured CAS stream
(leader of `n ≥ 1` bytes 0x55, sync 0x3C, header block, any number of
data blocks, EOF block) the state machine sits in `CAS_STREAM_WRITE`
having written no file yet; the next captured byte `b` drives it to
IDLE and flushes exactly one output file, whose contents are the
captured stream followed by that extra byte. -/
theorem tape_fsm_flushes_stream_plus_one_byte
    (n : Nat) (hp : List Nat) (hck : Nat)
    (dbs : List (Nat × List Nat × Nat)) (eldr eck b : Nat)
    (hn : 1 ≤ n)
    (hlen : (cas_stream n hp hck dbs eldr eck).length + 1 ≤ 65535) :
    (tape_run_bytes tape_init (cas_stream n hp hck dbs eldr eck)).1.tape_state =
      .CAS_STREAM_WRITE ∧
    (tape_run_bytes tape_init (cas_stream n hp hck dbs eldr eck)).2 = [] ∧
    (tape_run_bytes tape_init
        (cas_stream n hp hck dbs eldr eck ++ [b])).1.tape_state =
      .CAS_STREAM_IDLE ∧
    (tape_run_bytes tape_init (cas_stream n hp hck dbs eldr eck ++ [b])).2 =
      [cas_stream n hp hck dbs eldr eck ++ [b]] := by
  have hphase := tape_phase_cas_stream n hp hck dbs eldr eck tape_init hn
    rfl rfl rfl rfl (by simp [tape_init]; omega)
  obtain ⟨e1, e2, e3, e4, e5, e6, e7⟩ := id hphase
  have hie : (tape_run_bytes tape_init
      (cas_stream n hp hck dbs eldr eck)).1.i =
      (cas_stream n hp hck dbs eldr eck).length := by
    rw [e6]; simp [tape_init]
  have hflush := tape_write_flush
    (tape_run_bytes tape_init (cas_stream n hp hck dbs eldr eck)).1 b e2
    (by rw [hie]; omega)
  refine ⟨e2, e1, ?_, ?_⟩
  · rw [tape_run_bytes_append, hflush]
  · rw [tape_run_bytes_append, hflush]
    simp only [e1, List.nil_append]
    rw [hie, e7]
    have hb : store_bytes tape_init.buf tape_init.i
        (cas_stream n hp hck dbs eldr eck) =
        store_bytes (fun _ => 0) 0 (cas_stream n hp hck dbs eldr eck) := rfl
    rw [hb]
    rw [emission_eq]

theorem tape_fsm_flushes_stream_plus_one_byte_witness :
    (1 ≤ 1) ∧
    ((cas_stream 1 [] 0 [] 0 0).length + 1 ≤ 65535) ∧
    ((tape_run_bytes tape_init (cas_stream 1 [] 0 [] 0 0)).1.tape_state =
        .CAS_STREAM_WRITE ∧
      (tape_run_bytes tape_init (cas_stream 1 [] 0 [] 0 0)).2 = [] ∧
      (tape_run_bytes tape_init
          (cas_stream 1 [] 0 [] 0 0 ++ [0x55])).1.tape_state =
        .CAS_STREAM_IDLE ∧
      (tape_run_bytes tape_init (cas_stream 1 [] 0 [] 0 0 ++ [0x55])).2 =
        [cas_stream 1 [] 0 [] 0 0 ++ [0x55]]) :=
  ⟨by decide, by decide,
   tape_fsm_flushes_stream_plus_one_byte 1 [] 0 [] 0 0 0x55
     (by decide) (by decide)⟩

/-- C3 counterexample: the concrete conforming stream of claim C3 —
leader 0x55, sync 0x3C, header block `0x00 0x0B "TEST" 0000 {type 0,
ascii 0, gap 0} cksum`, no data blocks, EOF block `0x3C 0xFF 0x00
cksum` — leaves the state machine in `CAS_STREAM_WRITE`, not IDLE,
and no output file has been written at that point (the flush happens
only on the next captured byte, which is also appended to the file). -/
theorem tape_fsm_stream_counterexample :
    (tape_run_bytes tape_init
        [0x55, 0x3c,
         0x00, 0x0b, 0x54, 0x45, 0x53, 0x54, 0, 0, 0, 0, 0, 0, 0, 0xc7,
         0x3c, 0xff, 0x00, 0x00]).1.tape_state = .CAS_STREAM_WRITE ∧
    (tape_run_bytes tape_init
        [0x55, 0x3c,
         0x00, 0x0b, 0x54, 0x45, 0x53, 0x54, 0, 0, 0, 0, 0, 0, 0, 0xc7,
         0x3c, 0xff, 0x00, 0x00]).2 = [] := by
  exact ⟨by decide, by decide⟩

end Dragon32
